import Mathlib

/-!
# Snake game (`core_basic_window.c`): simulation core

A shallow embedding of the game-state update code of `core_basic_window.c`
and theorems about it.

Modelling conventions.

* C `int` values are `Int`.  Signed overflow is undefined in C, so the model
  computes on unbounded integers.
* The fixed arrays `body[MAX_SNAKE_LENGTH]` and `obstacles[MAX_OBSTACLES]` are
  total maps from an index to a cell; a slot keeps its value until it is written.
  The counters `length` and `obstacleCount` stay `Int`, as in the source.
* `rand()` is a stream of non-negative samples; every call takes the next one.
* The two `do { } while` retry loops are unbounded in the source.  Here they take
  a bound on the number of rounds and yield `none` when it is used up.
* `UpdateSnakeLogic` receives pointers into the one `GameState`
  (`&game.player1, &game, &game.player2, &game.score1` and the mirrored call);
  the embedding names the updated player by a `Player` value and reads and writes
  the snake and the score through the game state, which keeps the aliasing.
* Display, audio and the `float` clock are left out: `color`, `timeElapsed`, the
  sound handles.  The one-shot flag `gameOverSoundPlayed` is kept.
-/

namespace SnakeGame

/-! ## Constants -/

def SCREEN_WIDTH : Int := 800
def SCREEN_HEIGHT : Int := 600
def CELL_SIZE : Int := 20
def MAX_SNAKE_LENGTH : Int := 100
def MAX_OBSTACLES : Int := 100

/-- Number of columns of the grid, `SCREEN_WIDTH / CELL_SIZE`. -/
def GRID_W : Int := SCREEN_WIDTH / CELL_SIZE

/-- Number of rows of the grid, `SCREEN_HEIGHT / CELL_SIZE`. -/
def GRID_H : Int := SCREEN_HEIGHT / CELL_SIZE

/-! ## Data model -/

structure Vector2Int where
  x : Int
  y : Int
  deriving DecidableEq, Repr

inductive Direction where
  | UP | DOWN | LEFT | RIGHT
  deriving DecidableEq, Repr

structure Snake where
  body : Nat → Vector2Int
  length : Int
  dir : Direction
  isDead : Bool

structure GameState where
  player1 : Snake
  player2 : Snake
  fruit : Vector2Int
  score1 : Int
  score2 : Int
  gameOver : Bool
  gamePaused : Bool
  speed : Int
  highScore : Int
  obstacles : Nat → Vector2Int
  obstacleCount : Int
  winningPlayer : Int
  gameOverSoundPlayed : Bool
  gameMode : Int
  lastSelectedSpeed : Int
  lastSelectedGameMode : Int

/-- The successive results of `rand()`. -/
abbrev RandStream := Nat → Nat

/-- Which snake a call of `UpdateSnakeLogic` updates: `P1` stands for the arguments
`(&game.player1, &game, &game.player2, &game.score1)`, `P2` for
`(&game.player2, &game, &game.player1, &game.score2)`. -/
inductive Player where
  | P1 | P2
  deriving DecidableEq, Repr

def Player.other : Player → Player
  | .P1 => .P2
  | .P2 => .P1

def GameState.snake (game : GameState) : Player → Snake
  | .P1 => game.player1
  | .P2 => game.player2

def GameState.setSnake (game : GameState) (who : Player) (s : Snake) : GameState :=
  match who with
  | .P1 => { game with player1 := s }
  | .P2 => { game with player2 := s }

def GameState.score (game : GameState) : Player → Int
  | .P1 => game.score1
  | .P2 => game.score2

def GameState.setScore (game : GameState) (who : Player) (v : Int) : GameState :=
  match who with
  | .P1 => { game with score1 := v }
  | .P2 => { game with score2 := v }

/-! ## Array and loop primitives -/

/-- The assignment `arr[i] = v`. -/
def setAt {α : Type} (arr : Nat → α) (i : Nat) (v : α) : Nat → α :=
  fun j => if j = i then v else arr j

/-- The scan `for (int i = lo; i < hi; i++) if (p(i)) return true;` that falls
through to `false`. -/
def scanFrom (lo : Nat) (hi : Int) (p : Nat → Bool) : Bool :=
  (List.range' lo (hi.toNat - lo)).any p

/-- The C remainder `a % b` (truncated division). -/
def cRem (a b : Int) : Int := Int.tmod a b

/-- One `rand()` call: the sample and the rest of the stream. -/
def rand (rnd : RandStream) : Int × RandStream :=
  ((rnd 0 : Int), fun n => rnd (n + 1))

/-! ## Utility functions (source lines 60-115) -/

def IsCollision (a b : Vector2Int) : Bool :=
  a.x == b.x && a.y == b.y

def IsOnObstacle (game : GameState) (pos : Vector2Int) : Bool :=
  scanFrom 0 game.obstacleCount (fun i => IsCollision pos (game.obstacles i))

def IsOnAnySnake (game : GameState) (pos : Vector2Int) : Bool :=
  if scanFrom 0 game.player1.length (fun i => IsCollision pos (game.player1.body i)) then true
  else if game.gameMode == 2 then
    scanFrom 0 game.player2.length (fun i => IsCollision pos (game.player2.body i))
  else false

/-- The loop test of `GenerateNewFruitPosition`: `true` when the sampled cell is
rejected (`validPos = false`). -/
def fruitRejected (game : GameState) (newFruitPos : Vector2Int) : Bool :=
  IsCollision newFruitPos (game.player1.body 0) ||
  (game.gameMode == 2 && IsCollision newFruitPos (game.player2.body 0)) ||
  IsOnAnySnake game newFruitPos || IsOnObstacle game newFruitPos

/-- `GenerateNewFruitPosition`, with at most `fuel` rounds of its retry loop. -/
def GenerateNewFruitPosition : Nat → GameState → RandStream → Option (GameState × RandStream)
  | 0, _, _ => none
  | fuel + 1, game, rnd =>
    let (r1, rnd1) := rand rnd
    let (r2, rnd2) := rand rnd1
    let newFruitPos : Vector2Int := ⟨cRem r1 GRID_W, cRem r2 GRID_H⟩
    if fruitRejected game newFruitPos then GenerateNewFruitPosition fuel game rnd2
    else some ({ game with fruit := newFruitPos }, rnd2)

/-- The loop test of `AddObstacle`: `true` when the sampled cell is rejected. -/
def obstacleRejected (game : GameState) (o : Vector2Int) : Bool :=
  IsCollision o game.fruit || IsOnObstacle game o || IsOnAnySnake game o

/-- The retry loop of `AddObstacle`, with at most `fuel` rounds: the accepted cell. -/
def sampleObstacle : Nat → GameState → RandStream → Option (Vector2Int × RandStream)
  | 0, _, _ => none
  | fuel + 1, game, rnd =>
    let (r1, rnd1) := rand rnd
    let (r2, rnd2) := rand rnd1
    let o : Vector2Int := ⟨cRem r1 GRID_W, cRem r2 GRID_H⟩
    if obstacleRejected game o then sampleObstacle fuel game rnd2
    else some (o, rnd2)

def AddObstacle (fuel : Nat) (game : GameState) (rnd : RandStream) :
    Option (GameState × RandStream) :=
  if game.obstacleCount ≥ MAX_OBSTACLES then some (game, rnd)
  else
    match sampleObstacle fuel game rnd with
    | none => none
    | some (o, rnd1) =>
      some ({ game with
                obstacles := setAt game.obstacles game.obstacleCount.toNat o,
                obstacleCount := game.obstacleCount + 1 }, rnd1)

/-! ## Game functions (source lines 119-216) -/

/-- The seeding loop `for (i = 0; i < length; i++) body[i] = cell(i)` of `InitGame`,
run over the indices `i, i+1, ..` with `n` iterations left. -/
def seedBody (cell : Nat → Vector2Int) : Nat → Nat → (Nat → Vector2Int) → (Nat → Vector2Int)
  | 0, _, body => body
  | n + 1, i, body => seedBody cell n (i + 1) (setAt body i (cell i))

/-- `InitGame`; `seed` is the stream that `srand(time(NULL))` selects. -/
def InitGame (fuel : Nat) (game : GameState) (speed mode : Int) (seed : RandStream) :
    Option (GameState × RandStream) :=
  let game := { game with gameMode := mode, lastSelectedSpeed := speed,
                          lastSelectedGameMode := mode }
  let p1 := { game.player1 with length := 2, dir := Direction.RIGHT, isDead := false }
  let body := seedBody (fun i => ⟨10 - (i : Int), 10⟩) p1.length.toNat 0 p1.body
  let p1 := { p1 with body := body }
  let game := { game with player1 := p1, score1 := 0 }
  let game :=
    if game.gameMode == 2 then
      let p2 := { game.player2 with length := 2, dir := Direction.LEFT, isDead := false }
      let body := seedBody (fun i => ⟨GRID_W - 10 + (i : Int), GRID_H - 10⟩) p2.length.toNat 0 p2.body
      let p2 := { p2 with body := body }
      { game with player2 := p2, score2 := 0 }
    else
      { game with player2 := { game.player2 with isDead := true, length := 0 }, score2 := 0 }
  let game := { game with gameOver := false, gamePaused := false, speed := speed,
                          obstacleCount := 0, winningPlayer := 0,
                          gameOverSoundPlayed := false }
  GenerateNewFruitPosition fuel game seed

/-- The body shift `for (i = length - 1; i > 0; i--) body[i] = body[i - 1]`, entered
with the loop index `i`. -/
def shiftBody : Nat → (Nat → Vector2Int) → (Nat → Vector2Int)
  | 0, body => body
  | i + 1, body => shiftBody i (setAt body (i + 1) (body i))

/-- The `switch (snake->dir)` that moves the head cell. -/
def moveHead (dir : Direction) (head : Vector2Int) : Vector2Int :=
  match dir with
  | .UP => { head with y := head.y - 1 }
  | .DOWN => { head with y := head.y + 1 }
  | .LEFT => { head with x := head.x - 1 }
  | .RIGHT => { head with x := head.x + 1 }

/-- Lines 170-180 of `UpdateSnakeLogic`: the snake after the body shift and the
head move. -/
def movedSnake (snake : Snake) : Snake :=
  let body := shiftBody (snake.length - 1).toNat snake.body
  { snake with body := setAt body 0 (moveHead snake.dir (body 0)) }

/-- Lines 182-204 of `UpdateSnakeLogic`: the value of `snake->isDead` after the three
collision checks, for a snake that was alive and has been moved. -/
def collides (game : GameState) (snake otherSnake : Snake) : Bool :=
  let dead :=
    decide ((snake.body 0).x < 0) || decide ((snake.body 0).x ≥ GRID_W) ||
    decide ((snake.body 0).y < 0) || decide ((snake.body 0).y ≥ GRID_H) ||
    IsOnObstacle game (snake.body 0)
  let dead := dead || scanFrom 1 snake.length (fun i => IsCollision (snake.body 0) (snake.body i))
  if game.gameMode == 2 && !otherSnake.isDead then
    dead || scanFrom 0 otherSnake.length (fun i => IsCollision (snake.body 0) (otherSnake.body i))
  else dead

/-- `UpdateSnakeLogic` for the call that updates the snake of `who`: `snake` and
`score` are that player's fields of `game`, `otherSnake` is the other player's snake.
`fuel` bounds the rounds of each retry loop entered. -/
def UpdateSnakeLogic (fuel : Nat) (who : Player) (game : GameState) (rnd : RandStream) :
    Option (GameState × RandStream) :=
  if (game.snake who).isDead then some (game, rnd)
  else
    let game := game.setSnake who (movedSnake (game.snake who))
    let dead := collides game (game.snake who) (game.snake who.other)
    let game := game.setSnake who { game.snake who with isDead := dead }
    if !(game.snake who).isDead && IsCollision ((game.snake who).body 0) game.fruit then
      let game :=
        if (game.snake who).length < MAX_SNAKE_LENGTH then
          game.setSnake who { game.snake who with length := (game.snake who).length + 1 }
        else game
      let game := game.setScore who (game.score who + 1)
      match GenerateNewFruitPosition fuel game rnd with
      | none => none
      | some (game, rnd) =>
        let game := if game.speed < 20 then { game with speed := game.speed + 1 } else game
        if cRem (game.score who) 3 == 0 then AddObstacle fuel game rnd
        else some (game, rnd)
    else some (game, rnd)

/-! ## The playing state of `main` (source lines 320-451) -/

/-- The four "just pressed" flags of one player's direction keys in one frame:
`KEY_UP, KEY_DOWN, KEY_LEFT, KEY_RIGHT` for player 1 and `KEY_W, KEY_S, KEY_A, KEY_D`
for player 2. -/
structure DirKeys where
  up : Bool
  down : Bool
  left : Bool
  right : Bool
  deriving DecidableEq, Repr

/-- Lines 323-326 (player 1) and 330-333 (player 2) of `main`: the four key checks,
one after the other, each reading the heading as the checks before it left it. -/
def handleDirectionKeys (dir : Direction) (keys : DirKeys) : Direction :=
  let dir := if keys.up && dir != Direction.DOWN then Direction.UP else dir
  let dir := if keys.down && dir != Direction.UP then Direction.DOWN else dir
  let dir := if keys.left && dir != Direction.RIGHT then Direction.LEFT else dir
  let dir := if keys.right && dir != Direction.LEFT then Direction.RIGHT else dir
  dir

/-- The direction directly opposite to a heading. -/
def Direction.opposite : Direction → Direction
  | .UP => .DOWN
  | .DOWN => .UP
  | .LEFT => .RIGHT
  | .RIGHT => .LEFT

/-- Lines 368-386 of `main`: the end-of-round evaluation that follows the updates. -/
def evaluateRoundEnd (game : GameState) : GameState :=
  if game.player1.isDead || (game.gameMode == 2 && game.player2.isDead) then
    let game : GameState := { game with gameOver := true }
    let game : GameState :=
      if !game.gameOverSoundPlayed then { game with gameOverSoundPlayed := true }
      else game
    if game.gameMode == 1 then { game with winningPlayer := 0 }
    else if game.player1.isDead && game.player2.isDead then { game with winningPlayer := 3 }
    else if game.player1.isDead then { game with winningPlayer := 2 }
    else if game.player2.isDead then { game with winningPlayer := 1 }
    else game
  else game

/-- Lines 355-386 of `main`: one simulation tick (the body of the timer test). -/
def simulationTick (fuel : Nat) (game : GameState) (rnd : RandStream) :
    Option (GameState × RandStream) :=
  match UpdateSnakeLogic fuel Player.P1 game rnd with
  | none => none
  | some (game, rnd) =>
    match (if game.gameMode == 2 then UpdateSnakeLogic fuel Player.P2 game rnd
           else some (game, rnd)) with
    | none => none
    | some (game, rnd) => some (evaluateRoundEnd game, rnd)

/-- The round's best score, `currentMaxScore` of lines 442-445 of `main`. -/
def currentMaxScore (game : GameState) : Int :=
  let currentMaxScore := game.score1
  if game.gameMode == 2 then
    (if game.score1 > game.score2 then game.score1 else game.score2)
  else currentMaxScore

/-- Lines 442-450 of `main`: the high-score step of a frame that shows the game-over
screen.  The second component is the number the step writes to `highscore.txt`, or
`none` when it leaves the file alone. -/
def updateHighScore (game : GameState) : GameState × Option Int :=
  if currentMaxScore game > game.highScore then
    let game := { game with highScore := currentMaxScore game }
    (game, some game.highScore)
  else (game, none)

/-- What one frame of the playing state reads from outside: the keys just pressed,
whether the `float` timer has reached `1.0f / game.speed`, and the stream that
`srand(time(NULL))` would select in this frame. -/
structure FrameInput where
  p1Keys : DirKeys
  p2Keys : DirKeys
  keySpace : Bool
  keyEnter : Bool
  timerDue : Bool
  seed : RandStream

/-- Lines 321-338 of `main`: the direction keys, read only while the game runs, then
the pause toggle. -/
def applyControls (inp : FrameInput) (game : GameState) : GameState :=
  let game : GameState :=
    if !game.gameOver && !game.gamePaused then
      let game : GameState := { game with
        player1 := { game.player1 with dir := handleDirectionKeys game.player1.dir inp.p1Keys } }
      if game.gameMode == 2 then
        { game with
          player2 := { game.player2 with dir := handleDirectionKeys game.player2.dir inp.p2Keys } }
      else game
    else game
  if inp.keySpace then { game with gamePaused := !game.gamePaused } else game

/-- Lines 341-346 of `main`: `KEY_ENTER` on the pause or game-over screen restarts the
game with the speed and mode of the running round. -/
def restartIfAsked (fuel : Nat) (inp : FrameInput) (game : GameState) (rnd : RandStream) :
    Option (GameState × RandStream) :=
  if (game.gamePaused || game.gameOver) && inp.keyEnter then
    InitGame fuel game game.lastSelectedSpeed game.lastSelectedGameMode inp.seed
  else some (game, rnd)

/-- Lines 354-387 of `main`: the simulation tick, when the timer is due and the game is
neither over nor paused. -/
def tickIfDue (fuel : Nat) (inp : FrameInput) (game : GameState) (rnd : RandStream) :
    Option (GameState × RandStream) :=
  if inp.timerDue && !game.gameOver && !game.gamePaused then simulationTick fuel game rnd
  else some (game, rnd)

/-- Lines 423-451 of `main` without the drawing: the high-score step, run in every frame
that shows the game-over screen. -/
def highScoreIfOver (game : GameState) : GameState × Option Int :=
  if game.gameOver then updateHighScore game else (game, none)

/-- Lines 320-451 of `main` without the drawing: one frame of the playing state.
The third component is the number written to `highscore.txt` in this frame. -/
def playingFrame (fuel : Nat) (inp : FrameInput) (game : GameState) (rnd : RandStream) :
    Option (GameState × RandStream × Option Int) :=
  match restartIfAsked fuel inp (applyControls inp game) rnd with
  | none => none
  | some (game, rnd) =>
    match tickIfDue fuel inp game rnd with
    | none => none
    | some (game, rnd) =>
      let (game, written) := highScoreIfOver game
      some (game, rnd, written)

/-- A run of frames of the playing state, one input per frame. -/
def playFrames (fuel : Nat) : List FrameInput → GameState → RandStream →
    Option (GameState × RandStream)
  | [], game, rnd => some (game, rnd)
  | inp :: rest, game, rnd =>
    match playingFrame fuel inp game rnd with
    | none => none
    | some (game, rnd, _) => playFrames fuel rest game rnd

/-! ## Concrete states used in the examples -/

/-- The state `GameState game = {0}` of `main`, before any game has been set up. -/
def zeroSnake : Snake :=
  { body := fun _ => ⟨0, 0⟩, length := 0, dir := Direction.UP, isDead := false }

def zeroGame : GameState :=
  { player1 := zeroSnake, player2 := zeroSnake, fruit := ⟨0, 0⟩, score1 := 0, score2 := 0,
    gameOver := false, gamePaused := false, speed := 0, highScore := 0,
    obstacles := fun _ => ⟨0, 0⟩, obstacleCount := 0, winningPlayer := 0,
    gameOverSoundPlayed := false, gameMode := 0, lastSelectedSpeed := 0,
    lastSelectedGameMode := 0 }

/-- A `rand()` stream that returns the listed samples and then `0` for ever. -/
def samples (l : List Nat) : RandStream := fun n => l.getD n 0

/-- A live snake whose first cells are the listed ones; every other slot of the array
holds `(0,0)`. -/
def snakeOf (cells : List Vector2Int) (dir : Direction) : Snake :=
  { body := fun i => cells.getD i ⟨0, 0⟩, length := (cells.length : Int), dir := dir,
    isDead := false }

/-- A single-player game as `InitGame` leaves it for mode 1 and speed 5, with the given
snake and fruit. -/
def soloGame (p1 : Snake) (fruit : Vector2Int) : GameState :=
  { zeroGame with
    player1 := p1, player2 := { zeroSnake with isDead := true }, fruit := fruit,
    speed := 5, gameMode := 1, lastSelectedSpeed := 5, lastSelectedGameMode := 1 }

/-- A two-player game as `InitGame` leaves it for mode 2 and speed 5, with the given
snakes and fruit. -/
def duoGame (p1 p2 : Snake) (fruit : Vector2Int) : GameState :=
  { zeroGame with
    player1 := p1, player2 := p2, fruit := fruit,
    speed := 5, gameMode := 2, lastSelectedSpeed := 5, lastSelectedGameMode := 2 }

/-- The cell that round `k` (counted from 0) of a retry loop samples from the stream
`rnd`: `x = rand() % 40` from sample `2k`, `y = rand() % 30` from sample `2k + 1`. -/
def sampledCell (rnd : RandStream) (k : Nat) : Vector2Int :=
  ⟨cRem (rnd (2 * k) : Int) GRID_W, cRem (rnd (2 * k + 1) : Int) GRID_H⟩

/-! ## Basic facts about the primitives -/

theorem IsCollision_iff (a b : Vector2Int) : IsCollision a b = true ↔ a = b := by
  cases a; cases b
  simp [IsCollision]

theorem IsCollision_false_iff (a b : Vector2Int) : IsCollision a b = false ↔ a ≠ b := by
  rw [Ne, ← IsCollision_iff, Bool.not_eq_true]

theorem scanFrom_iff (lo : Nat) (hi : Int) (p : Nat → Bool) :
    scanFrom lo hi p = true ↔ ∃ i : Nat, lo ≤ i ∧ (i : Int) < hi ∧ p i = true := by
  unfold scanFrom
  rw [List.any_eq_true]
  constructor
  · rintro ⟨i, hi', hp⟩
    rw [List.mem_range'] at hi'
    obtain ⟨k, hk, rfl⟩ := hi'
    exact ⟨lo + 1 * k, by omega, by omega, hp⟩
  · rintro ⟨i, h1, h2, hp⟩
    refine ⟨i, ?_, hp⟩
    rw [List.mem_range']
    exact ⟨i - lo, by omega, by omega⟩

theorem scanFrom_false_iff (lo : Nat) (hi : Int) (p : Nat → Bool) :
    scanFrom lo hi p = false ↔ ∀ i : Nat, lo ≤ i → (i : Int) < hi → p i = false := by
  rw [← Bool.not_eq_true, scanFrom_iff]
  constructor
  · intro h i h1 h2
    by_contra hp
    exact h ⟨i, h1, h2, by simpa using hp⟩
  · rintro h ⟨i, h1, h2, hp⟩
    rw [h i h1 h2] at hp
    exact Bool.noConfusion hp

theorem setAt_same {α : Type} (arr : Nat → α) (i : Nat) (v : α) : setAt arr i v i = v := by
  simp [setAt]

theorem setAt_other {α : Type} (arr : Nat → α) (i j : Nat) (v : α) (h : j ≠ i) :
    setAt arr i v j = arr j := by
  simp [setAt, h]

theorem shiftBody_apply (n : Nat) (body : Nat → Vector2Int) (j : Nat) :
    shiftBody n body j = if 1 ≤ j ∧ j ≤ n then body (j - 1) else body j := by
  induction n generalizing body with
  | zero =>
    have h0 : ¬ (1 ≤ j ∧ j ≤ 0) := by omega
    rw [if_neg h0, shiftBody]
  | succ n ih =>
    rw [shiftBody, ih]
    by_cases h1 : 1 ≤ j ∧ j ≤ n
    · have h2 : 1 ≤ j ∧ j ≤ n + 1 := by omega
      rw [if_pos h1, if_pos h2, setAt_other _ _ _ _ (by omega)]
    · rw [if_neg h1]
      by_cases h3 : j = n + 1
      · subst h3
        rw [setAt_same, if_pos (by omega)]
        simp
      · rw [setAt_other _ _ _ _ h3, if_neg (by omega)]

@[simp] theorem snake_setSnake (game : GameState) (who : Player) (s : Snake) :
    (game.setSnake who s).snake who = s := by
  cases who <;> rfl

@[simp] theorem snake_other_setSnake (game : GameState) (who : Player) (s : Snake) :
    (game.setSnake who s).snake who.other = game.snake who.other := by
  cases who <;> rfl

@[simp] theorem snake_setScore (game : GameState) (who p : Player) (v : Int) :
    (game.setScore who v).snake p = game.snake p := by
  cases who <;> cases p <;> rfl

@[simp] theorem score_setScore (game : GameState) (who : Player) (v : Int) :
    (game.setScore who v).score who = v := by
  cases who <;> rfl

@[simp] theorem score_setSnake (game : GameState) (who p : Player) (s : Snake) :
    (game.setSnake who s).score p = game.score p := by
  cases who <;> cases p <;> rfl

@[simp] theorem fruit_setSnake (game : GameState) (who : Player) (s : Snake) :
    (game.setSnake who s).fruit = game.fruit := by
  cases who <;> rfl

@[simp] theorem setSnake_setSnake (game : GameState) (who : Player) (a b : Snake) :
    (game.setSnake who a).setSnake who b = game.setSnake who b := by
  cases who <;> rfl

theorem GenerateNewFruitPosition_some (fuel : Nat) (game : GameState) (rnd : RandStream)
    (res : GameState × RandStream) (h : GenerateNewFruitPosition fuel game rnd = some res) :
    res.1 = { game with fruit := res.1.fruit } ∧ fruitRejected game res.1.fruit = false := by
  induction fuel generalizing rnd with
  | zero => simp [GenerateNewFruitPosition] at h
  | succ n ih =>
    simp only [GenerateNewFruitPosition, rand] at h
    split at h
    · exact ih _ h
    · next hrej =>
      simp only [Option.some.injEq] at h
      subst h
      exact ⟨rfl, by simpa using hrej⟩

theorem sampleObstacle_some (fuel : Nat) (game : GameState) (rnd : RandStream)
    (res : Vector2Int × RandStream) (h : sampleObstacle fuel game rnd = some res) :
    obstacleRejected game res.1 = false := by
  induction fuel generalizing rnd with
  | zero => simp [sampleObstacle] at h
  | succ n ih =>
    simp only [sampleObstacle, rand] at h
    split at h
    · exact ih _ h
    · next hrej =>
      simp only [Option.some.injEq] at h
      subst h
      simpa using hrej

theorem AddObstacle_some (fuel : Nat) (game : GameState) (rnd : RandStream)
    (res : GameState × RandStream) (h : AddObstacle fuel game rnd = some res) :
    (MAX_OBSTACLES ≤ game.obstacleCount ∧ res = (game, rnd)) ∨
    (game.obstacleCount < MAX_OBSTACLES ∧ ∃ o : Vector2Int, obstacleRejected game o = false ∧
      res.1 = { game with obstacles := setAt game.obstacles game.obstacleCount.toNat o,
                          obstacleCount := game.obstacleCount + 1 }) := by
  unfold AddObstacle at h
  split at h
  · next hcap =>
    left
    simp only [Option.some.injEq] at h
    exact ⟨hcap, h.symm⟩
  · next hcap =>
    right
    refine ⟨by omega, ?_⟩
    split at h
    · exact Option.noConfusion h
    · next o rnd1 hs =>
      simp only [Option.some.injEq] at h
      subst h
      exact ⟨o, sampleObstacle_some _ _ _ _ hs, rfl⟩

/-- How a call of `UpdateSnakeLogic` on a live snake unfolds: either nothing is eaten
and the result is the moved snake with its collision flag, or the snake survives on
the fruit cell and the fruit, speed and obstacle steps follow. -/
theorem UpdateSnakeLogic_live (fuel : Nat) (who : Player) (game : GameState) (rnd : RandStream)
    (res : GameState × RandStream) (hlive : (game.snake who).isDead = false)
    (h : UpdateSnakeLogic fuel who game rnd = some res) :
    let s := movedSnake (game.snake who)
    let dead := collides (game.setSnake who s) s (game.snake who.other)
    ((dead = true ∨ IsCollision (s.body 0) game.fruit = false) ∧
      res = (game.setSnake who { s with isDead := dead }, rnd)) ∨
    (dead = false ∧ IsCollision (s.body 0) game.fruit = true ∧
      ∃ g2 r2,
        GenerateNewFruitPosition fuel
          ((game.setSnake who
              { s with isDead := false,
                       length := if s.length < MAX_SNAKE_LENGTH then s.length + 1
                                 else s.length }).setScore who (game.score who + 1)) rnd
          = some (g2, r2) ∧
        ((cRem (game.score who + 1) 3 = 0 ∧
            AddObstacle fuel
              { g2 with speed := if g2.speed < 20 then g2.speed + 1 else g2.speed } r2
            = some res) ∨
         (cRem (game.score who + 1) 3 ≠ 0 ∧
            res = ({ g2 with speed := if g2.speed < 20 then g2.speed + 1 else g2.speed }, r2)))) := by
  intro s dead
  have hs : movedSnake (game.snake who) = s := rfl
  have hd : collides (game.setSnake who s) s (game.snake who.other) = dead := rfl
  clear_value s dead
  unfold UpdateSnakeLogic at h
  rw [if_neg (by simp [hlive])] at h
  simp only [snake_setSnake, snake_other_setSnake, fruit_setSnake, setSnake_setSnake, hs, hd,
    score_setSnake] at h
  by_cases hc : (!dead && IsCollision (s.body 0) game.fruit) = true
  · rw [if_pos hc] at h
    simp only [Bool.and_eq_true, Bool.not_eq_true'] at hc
    obtain ⟨hdead, hfruit⟩ := hc
    right
    refine ⟨hdead, hfruit, ?_⟩
    have hE : (if s.length < MAX_SNAKE_LENGTH then
                game.setSnake who { body := s.body, length := s.length + 1, dir := s.dir, isDead := dead }
              else game.setSnake who { body := s.body, length := s.length, dir := s.dir, isDead := dead })
        = game.setSnake who
            { s with isDead := false,
                     length := if s.length < MAX_SNAKE_LENGTH then s.length + 1 else s.length } := by
      subst hdead
      split <;> rfl
    rw [hE, score_setSnake] at h
    cases hG : GenerateNewFruitPosition fuel
        ((game.setSnake who
            { s with isDead := false,
                     length := if s.length < MAX_SNAKE_LENGTH then s.length + 1
                               else s.length }).setScore who (game.score who + 1)) rnd with
    | none => rw [hG] at h; exact Option.noConfusion h
    | some p =>
      obtain ⟨g2, r2⟩ := p
      rw [hG] at h
      refine ⟨g2, r2, rfl, ?_⟩
      have hg2 := (GenerateNewFruitPosition_some _ _ _ _ hG).1
      dsimp only at hg2
      have hscore : g2.score who = game.score who + 1 := by
        rw [hg2]
        cases who <;> simp [GameState.score, GameState.setScore, GameState.setSnake]
      have hsp : (if g2.speed < 20 then { g2 with speed := g2.speed + 1 } else g2)
          = { g2 with speed := if g2.speed < 20 then g2.speed + 1 else g2.speed } := by
        split <;> rfl
      have hsc : ({ g2 with speed := if g2.speed < 20 then g2.speed + 1 else g2.speed } :
          GameState).score who = game.score who + 1 := by
        rw [← hscore]
        cases who <;> rfl
      simp only [hsp, hsc] at h
      by_cases h3 : cRem (game.score who + 1) 3 = 0
      · left
        rw [if_pos (by simp [h3])] at h
        exact ⟨h3, h⟩
      · right
        rw [if_neg (by simpa using h3)] at h
        simp only [Option.some.injEq] at h
        exact ⟨h3, h.symm⟩
  · rw [if_neg hc] at h
    simp only [Option.some.injEq] at h
    left
    refine ⟨?_, h.symm⟩
    cases dead <;> simp_all

/-! ## The moved snake -/

theorem movedSnake_head (snake : Snake) :
    (movedSnake snake).body 0 = moveHead snake.dir (snake.body 0) := by
  simp [movedSnake, setAt_same, shiftBody_apply]

theorem movedSnake_segment (snake : Snake) (i : Nat) (h1 : 1 ≤ i) (h2 : (i : Int) < snake.length) :
    (movedSnake snake).body i = snake.body (i - 1) := by
  have h3 : i ≠ 0 := by omega
  have h4 : 1 ≤ i ∧ i ≤ (snake.length - 1).toNat := by omega
  simp only [movedSnake]
  rw [setAt_other _ _ _ _ h3, shiftBody_apply, if_pos h4]

theorem movedSnake_beyond (snake : Snake) (i : Nat) (h1 : 1 ≤ i) (h2 : snake.length ≤ (i : Int)) :
    (movedSnake snake).body i = snake.body i := by
  have h3 : i ≠ 0 := by omega
  have h4 : ¬ (1 ≤ i ∧ i ≤ (snake.length - 1).toNat) := by omega
  simp only [movedSnake]
  rw [setAt_other _ _ _ _ h3, shiftBody_apply, if_neg h4]

@[simp] theorem movedSnake_length (snake : Snake) : (movedSnake snake).length = snake.length :=
  rfl

@[simp] theorem movedSnake_dir (snake : Snake) : (movedSnake snake).dir = snake.dir :=
  rfl

@[simp] theorem movedSnake_isDead (snake : Snake) : (movedSnake snake).isDead = snake.isDead :=
  rfl

theorem GenerateNewFruitPosition_eq (fuel : Nat) (game : GameState) (rnd : RandStream)
    (g2 : GameState) (r2 : RandStream) (h : GenerateNewFruitPosition fuel game rnd = some (g2, r2)) :
    ∃ f : Vector2Int, g2 = { game with fruit := f } ∧ fruitRejected game f = false :=
  ⟨g2.fruit, (GenerateNewFruitPosition_some _ _ _ _ h).1, (GenerateNewFruitPosition_some _ _ _ _ h).2⟩

/-- What a call of `UpdateSnakeLogic` on a live snake leaves untouched, and the body
and flag it stores for the updated snake. -/
theorem UpdateSnakeLogic_frame (fuel : Nat) (who : Player) (game : GameState) (rnd : RandStream)
    (res : GameState × RandStream) (hlive : (game.snake who).isDead = false)
    (h : UpdateSnakeLogic fuel who game rnd = some res) :
    (res.1.snake who).body = (movedSnake (game.snake who)).body ∧
    (res.1.snake who).dir = (game.snake who).dir ∧
    (res.1.snake who).isDead =
      collides (game.setSnake who (movedSnake (game.snake who))) (movedSnake (game.snake who))
        (game.snake who.other) ∧
    res.1.snake who.other = game.snake who.other ∧
    res.1.score who.other = game.score who.other ∧
    res.1.gameMode = game.gameMode ∧ res.1.gameOver = game.gameOver ∧
    res.1.gamePaused = game.gamePaused ∧ res.1.winningPlayer = game.winningPlayer ∧
    res.1.highScore = game.highScore ∧ res.1.gameOverSoundPlayed = game.gameOverSoundPlayed ∧
    res.1.lastSelectedSpeed = game.lastSelectedSpeed ∧
    res.1.lastSelectedGameMode = game.lastSelectedGameMode := by
  rcases UpdateSnakeLogic_live fuel who game rnd res hlive h with ⟨_, hres⟩ | ⟨hd, _, g2, r2, hG, hA⟩
  · subst hres
    cases who <;> simp [GameState.snake, GameState.setSnake, GameState.score, Player.other]
  · obtain ⟨f, hg2, _⟩ := GenerateNewFruitPosition_eq _ _ _ _ _ hG
    subst hg2
    rcases hA with ⟨_, hA⟩ | ⟨_, hA⟩
    · rcases AddObstacle_some _ _ _ _ hA with ⟨_, hres⟩ | ⟨_, o, _, hres⟩
      · subst hres
        cases who <;>
          simp_all [GameState.snake, GameState.setSnake, GameState.score, GameState.setScore,
            Player.other]
      · rw [hres]
        cases who <;>
          simp_all [GameState.snake, GameState.setSnake, GameState.score, GameState.setScore,
            Player.other]
    · subst hA
      cases who <;>
        simp_all [GameState.snake, GameState.setSnake, GameState.score, GameState.setScore,
          Player.other]

/-! ## Collision detection -/

theorem GRID_W_eq : GRID_W = 40 := by decide

theorem GRID_H_eq : GRID_H = 30 := by decide

/-- The collision flag, check by check: wall, obstacle, own body, opponent. -/
theorem collides_iff (game : GameState) (snake otherSnake : Snake) :
    collides game snake otherSnake = true ↔
      ((snake.body 0).x < 0 ∨ 40 ≤ (snake.body 0).x ∨ (snake.body 0).y < 0 ∨
        30 ≤ (snake.body 0).y) ∨
      (∃ i : Nat, (i : Int) < game.obstacleCount ∧ game.obstacles i = snake.body 0) ∨
      (∃ i : Nat, 1 ≤ i ∧ (i : Int) < snake.length ∧ snake.body i = snake.body 0) ∨
      (game.gameMode = 2 ∧ otherSnake.isDead = false ∧
        ∃ i : Nat, (i : Int) < otherSnake.length ∧ otherSnake.body i = snake.body 0) := by
  have hobs : IsOnObstacle game (snake.body 0) = true ↔
      ∃ i : Nat, (i : Int) < game.obstacleCount ∧ game.obstacles i = snake.body 0 := by
    unfold IsOnObstacle
    rw [scanFrom_iff]
    constructor
    · rintro ⟨i, _, h2, h3⟩
      exact ⟨i, h2, ((IsCollision_iff _ _).1 h3).symm⟩
    · rintro ⟨i, h2, h3⟩
      exact ⟨i, Nat.zero_le _, h2, (IsCollision_iff _ _).2 h3.symm⟩
  have hself : scanFrom 1 snake.length (fun i => IsCollision (snake.body 0) (snake.body i)) = true ↔
      ∃ i : Nat, 1 ≤ i ∧ (i : Int) < snake.length ∧ snake.body i = snake.body 0 := by
    rw [scanFrom_iff]
    constructor
    · rintro ⟨i, h1, h2, h3⟩
      exact ⟨i, h1, h2, ((IsCollision_iff _ _).1 h3).symm⟩
    · rintro ⟨i, h1, h2, h3⟩
      exact ⟨i, h1, h2, (IsCollision_iff _ _).2 h3.symm⟩
  have hother : scanFrom 0 otherSnake.length
        (fun i => IsCollision (snake.body 0) (otherSnake.body i)) = true ↔
      ∃ i : Nat, (i : Int) < otherSnake.length ∧ otherSnake.body i = snake.body 0 := by
    rw [scanFrom_iff]
    constructor
    · rintro ⟨i, _, h2, h3⟩
      exact ⟨i, h2, ((IsCollision_iff _ _).1 h3).symm⟩
    · rintro ⟨i, h2, h3⟩
      exact ⟨i, Nat.zero_le _, h2, (IsCollision_iff _ _).2 h3.symm⟩
  unfold collides
  simp only [GRID_W_eq, GRID_H_eq]
  by_cases hm : game.gameMode = 2 <;> cases hdo : otherSnake.isDead <;>
    simp [hm, hobs, hself, hother, or_assoc]

/-! ## Direction keys -/

/-- C1 (the code breaks the claim): player heading RIGHT, `KEY_UP` and `KEY_LEFT` both
reported as just pressed in one frame.  The check of `KEY_UP` stores UP, the check of
`KEY_LEFT` then sees UP, which is not RIGHT, and stores LEFT: the heading after the
frame's input handling is the direction directly opposite to the heading before it. -/
theorem handleDirectionKeys_reverses :
    handleDirectionKeys Direction.RIGHT { up := true, down := false, left := true, right := false }
      = Direction.opposite Direction.RIGHT := by
  decide

/-- With a single direction key pressed in the frame the guard does its work: the new
heading is never the opposite of the old one. -/
theorem handleDirectionKeys_single_key (d : Direction) (keys : DirKeys)
    (h : (keys.up.toNat + keys.down.toNat + keys.left.toNat + keys.right.toNat ≤ 1)) :
    handleDirectionKeys d keys ≠ d.opposite := by
  obtain ⟨u, dn, l, r⟩ := keys
  revert h
  cases d <;> cases u <;> cases dn <;> cases l <;> cases r <;> decide

/-- A snake heading UP or DOWN is never reversed by one frame's key checks, whatever
keys are pressed. -/
theorem handleDirectionKeys_vertical (d : Direction) (keys : DirKeys)
    (h : d = Direction.UP ∨ d = Direction.DOWN) :
    handleDirectionKeys d keys ≠ d.opposite := by
  obtain ⟨u, dn, l, r⟩ := keys
  revert h
  cases d <;> cases u <;> cases dn <;> cases l <;> cases r <;> decide

/-! ## Death and movement of one snake -/

/-- C2: for a live snake with `1 ≤ length ≤ 100`, after a completed call of
`UpdateSnakeLogic` the `isDead` flag is set exactly when the new head cell is outside
the grid, or equals one of the first `obstacleCount` obstacle cells, or equals one of
the snake's own shifted segments at indices `1..length-1`, or (game mode 2, opponent not
dead) equals one of the opponent's segments at indices `0..length-1`. -/
theorem UpdateSnakeLogic_isDead_iff (fuel : Nat) (who : Player) (game : GameState)
    (rnd : RandStream) (res : GameState × RandStream)
    (hlive : (game.snake who).isDead = false)
    (_hlen1 : 1 ≤ (game.snake who).length) (_hlen100 : (game.snake who).length ≤ 100)
    (hres : UpdateSnakeLogic fuel who game rnd = some res) :
    (res.1.snake who).isDead = true ↔
      (((res.1.snake who).body 0).x < 0 ∨ 40 ≤ ((res.1.snake who).body 0).x ∨
        ((res.1.snake who).body 0).y < 0 ∨ 30 ≤ ((res.1.snake who).body 0).y) ∨
      (∃ i : Nat, (i : Int) < game.obstacleCount ∧
        game.obstacles i = (res.1.snake who).body 0) ∨
      (∃ i : Nat, 1 ≤ i ∧ (i : Int) < (game.snake who).length ∧
        (res.1.snake who).body i = (res.1.snake who).body 0) ∨
      (game.gameMode = 2 ∧ (game.snake who.other).isDead = false ∧
        ∃ i : Nat, (i : Int) < (game.snake who.other).length ∧
          (game.snake who.other).body i = (res.1.snake who).body 0) := by
  obtain ⟨hbody, _, hdead, _⟩ := UpdateSnakeLogic_frame fuel who game rnd res hlive hres
  rw [hdead, hbody, collides_iff]
  have hobs : (game.setSnake who (movedSnake (game.snake who))).obstacles = game.obstacles := by
    cases who <;> rfl
  have hcnt : (game.setSnake who (movedSnake (game.snake who))).obstacleCount
      = game.obstacleCount := by
    cases who <;> rfl
  have hmode : (game.setSnake who (movedSnake (game.snake who))).gameMode = game.gameMode := by
    cases who <;> rfl
  rw [hobs, hcnt, hmode, movedSnake_length]

/-- C3: for a live snake with `1 ≤ length ≤ 100`, after a completed call of
`UpdateSnakeLogic` (whether or not the move kills the snake) the head is the old head
moved one cell in the snake's direction (UP `y-1`, DOWN `y+1`, LEFT `x-1`, RIGHT `x+1`)
and every segment `i` with `1 ≤ i < length` holds the old segment `i-1`. -/
theorem UpdateSnakeLogic_moves (fuel : Nat) (who : Player) (game : GameState)
    (rnd : RandStream) (res : GameState × RandStream)
    (hlive : (game.snake who).isDead = false)
    (_hlen1 : 1 ≤ (game.snake who).length) (_hlen100 : (game.snake who).length ≤ 100)
    (hres : UpdateSnakeLogic fuel who game rnd = some res) :
    (res.1.snake who).body 0 =
      (match (game.snake who).dir with
       | Direction.UP => ⟨((game.snake who).body 0).x, ((game.snake who).body 0).y - 1⟩
       | Direction.DOWN => ⟨((game.snake who).body 0).x, ((game.snake who).body 0).y + 1⟩
       | Direction.LEFT => ⟨((game.snake who).body 0).x - 1, ((game.snake who).body 0).y⟩
       | Direction.RIGHT => ⟨((game.snake who).body 0).x + 1, ((game.snake who).body 0).y⟩) ∧
    ∀ i : Nat, 1 ≤ i → (i : Int) < (game.snake who).length →
      (res.1.snake who).body i = (game.snake who).body (i - 1) := by
  obtain ⟨hbody, _⟩ := UpdateSnakeLogic_frame fuel who game rnd res hlive hres
  rw [hbody]
  refine ⟨?_, fun i h1 h2 => movedSnake_segment _ i h1 h2⟩
  rw [movedSnake_head]
  cases (game.snake who).dir <;> rfl

/-- Witness for C2: a snake of length 2 heading RIGHT in column 39 is alive before the
call and dead after it, its new head being in column 40. -/
theorem UpdateSnakeLogic_isDead_iff_witness :
    ∃ res, UpdateSnakeLogic 0 Player.P1
        (soloGame (snakeOf [⟨39, 10⟩, ⟨38, 10⟩] Direction.RIGHT) ⟨5, 5⟩) (samples []) = some res ∧
      (res.1.snake Player.P1).body 0 = ⟨40, 10⟩ ∧ (res.1.snake Player.P1).isDead = true :=
  ⟨_, rfl, rfl,
    (UpdateSnakeLogic_isDead_iff 0 Player.P1
      (soloGame (snakeOf [⟨39, 10⟩, ⟨38, 10⟩] Direction.RIGHT) ⟨5, 5⟩) (samples []) _
      rfl (by decide) (by decide) rfl).2 (Or.inl (Or.inr (Or.inl (by decide))))⟩

/-- Witness for C3: the snake `[(10,10),(9,10)]` heading RIGHT becomes
`[(11,10),(10,10)]`. -/
theorem UpdateSnakeLogic_moves_witness :
    ∃ res, UpdateSnakeLogic 0 Player.P1
        (soloGame (snakeOf [⟨10, 10⟩, ⟨9, 10⟩] Direction.RIGHT) ⟨5, 5⟩) (samples []) = some res ∧
      (res.1.snake Player.P1).body 0 = ⟨11, 10⟩ ∧ (res.1.snake Player.P1).body 1 = ⟨10, 10⟩ :=
  ⟨_, rfl,
    (UpdateSnakeLogic_moves 0 Player.P1
      (soloGame (snakeOf [⟨10, 10⟩, ⟨9, 10⟩] Direction.RIGHT) ⟨5, 5⟩) (samples []) _
      rfl (by decide) (by decide) rfl).1,
    (UpdateSnakeLogic_moves 0 Player.P1
      (soloGame (snakeOf [⟨10, 10⟩, ⟨9, 10⟩] Direction.RIGHT) ⟨5, 5⟩) (samples []) _
      rfl (by decide) (by decide) rfl).2 1 (by decide) (by decide)⟩

/-! ## Occupancy queries and placement -/

theorem IsOnObstacle_iff (game : GameState) (pos : Vector2Int) :
    IsOnObstacle game pos = true ↔
      ∃ i : Nat, (i : Int) < game.obstacleCount ∧ game.obstacles i = pos := by
  unfold IsOnObstacle
  rw [scanFrom_iff]
  constructor
  · rintro ⟨i, _, h2, h3⟩
    exact ⟨i, h2, ((IsCollision_iff _ _).1 h3).symm⟩
  · rintro ⟨i, h2, h3⟩
    exact ⟨i, Nat.zero_le _, h2, (IsCollision_iff _ _).2 h3.symm⟩

theorem onSnake_iff (snake : Snake) (pos : Vector2Int) :
    scanFrom 0 snake.length (fun i => IsCollision pos (snake.body i)) = true ↔
      ∃ i : Nat, (i : Int) < snake.length ∧ snake.body i = pos := by
  rw [scanFrom_iff]
  constructor
  · rintro ⟨i, _, h2, h3⟩
    exact ⟨i, h2, ((IsCollision_iff _ _).1 h3).symm⟩
  · rintro ⟨i, h2, h3⟩
    exact ⟨i, Nat.zero_le _, h2, (IsCollision_iff _ _).2 h3.symm⟩

theorem IsOnAnySnake_iff (game : GameState) (pos : Vector2Int) :
    IsOnAnySnake game pos = true ↔
      (∃ i : Nat, (i : Int) < game.player1.length ∧ game.player1.body i = pos) ∨
      (game.gameMode = 2 ∧
        ∃ i : Nat, (i : Int) < game.player2.length ∧ game.player2.body i = pos) := by
  unfold IsOnAnySnake
  rw [← onSnake_iff, ← onSnake_iff]
  by_cases hm : game.gameMode = 2 <;>
    cases scanFrom 0 game.player1.length (fun i => IsCollision pos (game.player1.body i)) <;>
    simp [hm]

/-- A cell that `GenerateNewFruitPosition` accepts lies on no snake cell and on no
obstacle. -/
theorem fruitRejected_false (game : GameState) (f : Vector2Int)
    (h : fruitRejected game f = false) :
    (∀ i : Nat, (i : Int) < game.player1.length → game.player1.body i ≠ f) ∧
    (game.gameMode = 2 → ∀ i : Nat, (i : Int) < game.player2.length → game.player2.body i ≠ f) ∧
    (∀ i : Nat, (i : Int) < game.obstacleCount → game.obstacles i ≠ f) := by
  unfold fruitRejected at h
  simp only [Bool.or_eq_false_iff] at h
  obtain ⟨⟨_, hs⟩, ho⟩ := h
  have hs' : ¬ (IsOnAnySnake game f = true) := by simp [hs]
  have ho' : ¬ (IsOnObstacle game f = true) := by simp [ho]
  rw [IsOnAnySnake_iff] at hs'
  rw [IsOnObstacle_iff] at ho'
  refine ⟨fun i hi he => hs' (Or.inl ⟨i, hi, he⟩), fun hm i hi he => hs' (Or.inr ⟨hm, i, hi, he⟩),
    fun i hi he => ho' ⟨i, hi, he⟩⟩

/-- A cell that `AddObstacle` accepts is not the fruit cell, lies on no stored obstacle
and on no snake cell. -/
theorem obstacleRejected_false (game : GameState) (o : Vector2Int)
    (h : obstacleRejected game o = false) :
    o ≠ game.fruit ∧
    (∀ i : Nat, (i : Int) < game.obstacleCount → game.obstacles i ≠ o) ∧
    (∀ i : Nat, (i : Int) < game.player1.length → game.player1.body i ≠ o) ∧
    (game.gameMode = 2 → ∀ i : Nat, (i : Int) < game.player2.length → game.player2.body i ≠ o) := by
  unfold obstacleRejected at h
  simp only [Bool.or_eq_false_iff] at h
  obtain ⟨⟨hf, ho⟩, hs⟩ := h
  have hs' : ¬ (IsOnAnySnake game o = true) := by simp [hs]
  have ho' : ¬ (IsOnObstacle game o = true) := by simp [ho]
  rw [IsOnAnySnake_iff] at hs'
  rw [IsOnObstacle_iff] at ho'
  exact ⟨(IsCollision_false_iff _ _).1 hf, fun i hi he => ho' ⟨i, hi, he⟩,
    fun i hi he => hs' (Or.inl ⟨i, hi, he⟩), fun hm i hi he => hs' (Or.inr ⟨hm, i, hi, he⟩)⟩

theorem cRem_three (a : Int) : cRem a 3 = 0 ↔ 3 ∣ a :=
  ⟨Int.dvd_of_tmod_eq_zero, Int.tmod_eq_zero_of_dvd⟩

/-! ## Eating the fruit -/

/-- The state a call of `UpdateSnakeLogic` ends in when the live snake survives its move
onto the fruit cell: the grown snake and raised score, a fresh accepted fruit cell, the
speed step, and an accepted obstacle cell exactly when the new score is a multiple of 3
and the obstacle array is not full. -/
theorem UpdateSnakeLogic_eat_shape (fuel : Nat) (who : Player) (game : GameState)
    (rnd : RandStream) (res : GameState × RandStream)
    (hlive : (game.snake who).isDead = false)
    (hres : UpdateSnakeLogic fuel who game rnd = some res)
    (hsurv : (res.1.snake who).isDead = false)
    (hfruit : (res.1.snake who).body 0 = game.fruit) :
    ∃ (E G : GameState) (f : Vector2Int),
      E = (game.setSnake who
            { movedSnake (game.snake who) with
              isDead := false,
              length := if (game.snake who).length < MAX_SNAKE_LENGTH
                        then (game.snake who).length + 1 else (game.snake who).length }).setScore
            who (game.score who + 1) ∧
      fruitRejected E f = false ∧
      G = { E with fruit := f, speed := if E.speed < 20 then E.speed + 1 else E.speed } ∧
      ((3 ∣ game.score who + 1 ∧ G.obstacleCount < MAX_OBSTACLES ∧
          ∃ o : Vector2Int, obstacleRejected G o = false ∧
            res.1 = { G with obstacles := setAt G.obstacles G.obstacleCount.toNat o,
                             obstacleCount := G.obstacleCount + 1 }) ∨
       (¬ (3 ∣ game.score who + 1 ∧ G.obstacleCount < MAX_OBSTACLES) ∧ res.1 = G)) := by
  obtain ⟨hbody, _, hdead, _⟩ := UpdateSnakeLogic_frame fuel who game rnd res hlive hres
  rw [hdead] at hsurv
  rw [hbody] at hfruit
  rcases UpdateSnakeLogic_live fuel who game rnd res hlive hres with
    ⟨hno, _⟩ | ⟨_, _, g2, r2, hG, hA⟩
  · rcases hno with hno | hno
    · rw [hsurv] at hno
      exact Bool.noConfusion hno
    · rw [hfruit] at hno
      have := (IsCollision_false_iff _ _).1 hno
      exact absurd rfl this
  · obtain ⟨f, hg2, hrej⟩ := GenerateNewFruitPosition_eq _ _ _ _ _ hG
    subst hg2
    refine ⟨_, _, f, rfl, hrej, rfl, ?_⟩
    rcases hA with ⟨h3, hA⟩ | ⟨h3, hA⟩
    · rw [cRem_three] at h3
      rcases AddObstacle_some _ _ _ _ hA with ⟨hcap, hr⟩ | ⟨hcap, o, ho, hr⟩
      · right
        subst hr
        exact ⟨fun hh => absurd hh.2 (not_lt.2 hcap), rfl⟩
      · left
        exact ⟨h3, hcap, o, ho, hr⟩
    · rw [Ne, cRem_three] at h3
      right
      subst hA
      exact ⟨fun hh => h3 hh.1, rfl⟩

/-- C4: when a live snake survives its move and the new head is on the fruit cell, a
completed call of `UpdateSnakeLogic` raises the snake's score by exactly 1, makes its
length `min (length + 1) 100`, raises the speed by 1 when it was below 20 and leaves it
otherwise, stores a fruit cell that equals no snake cell and no obstacle cell of the
resulting state, and appends one obstacle exactly when the new score is a multiple of 3
(and the obstacle array has room); otherwise the obstacles are untouched. -/
theorem UpdateSnakeLogic_eats (fuel : Nat) (who : Player) (game : GameState)
    (rnd : RandStream) (res : GameState × RandStream)
    (hlive : (game.snake who).isDead = false)
    (hlen : (game.snake who).length ≤ 100)
    (hres : UpdateSnakeLogic fuel who game rnd = some res)
    (hsurv : (res.1.snake who).isDead = false)
    (hfruit : (res.1.snake who).body 0 = game.fruit) :
    res.1.score who = game.score who + 1 ∧
    (res.1.snake who).length = min ((game.snake who).length + 1) 100 ∧
    res.1.speed = (if game.speed < 20 then game.speed + 1 else game.speed) ∧
    (∀ i : Nat, (i : Int) < res.1.player1.length → res.1.player1.body i ≠ res.1.fruit) ∧
    (res.1.gameMode = 2 →
      ∀ i : Nat, (i : Int) < res.1.player2.length → res.1.player2.body i ≠ res.1.fruit) ∧
    (∀ i : Nat, (i : Int) < res.1.obstacleCount → res.1.obstacles i ≠ res.1.fruit) ∧
    res.1.obstacleCount =
      (if 3 ∣ game.score who + 1 ∧ game.obstacleCount < 100 then game.obstacleCount + 1
       else game.obstacleCount) ∧
    (¬ (3 ∣ game.score who + 1 ∧ game.obstacleCount < 100) → res.1.obstacles = game.obstacles) := by
  obtain ⟨E, G, f, hE, hrej, hG, hcase⟩ :=
    UpdateSnakeLogic_eat_shape fuel who game rnd res hlive hres hsurv hfruit
  obtain ⟨hf1, hf2, hf3⟩ := fruitRejected_false E f hrej
  have hEcnt : E.obstacleCount = game.obstacleCount := by
    rw [hE]; cases who <;> rfl
  have hEobs : E.obstacles = game.obstacles := by
    rw [hE]; cases who <;> rfl
  have hEspeed : E.speed = game.speed := by
    rw [hE]; cases who <;> rfl
  have hEscore : E.score who = game.score who + 1 := by
    rw [hE]; cases who <;> rfl
  have hElen : (E.snake who).length = min ((game.snake who).length + 1) 100 := by
    rw [hE]
    have hm : MAX_SNAKE_LENGTH = 100 := rfl
    cases who <;> simp only [GameState.snake, GameState.setSnake, GameState.setScore, hm,
      movedSnake_length] at hlen ⊢ <;> split <;> omega
  have hmax : MAX_OBSTACLES = 100 := rfl
  rcases hcase with ⟨h3, hcap, o, ho, hr⟩ | ⟨hno, hr⟩
  · obtain ⟨hof, _⟩ := obstacleRejected_false G o ho
    have hGcnt : G.obstacleCount = game.obstacleCount := by rw [hG]; exact hEcnt
    rw [hr]
    have hs : ({ G with obstacles := setAt G.obstacles G.obstacleCount.toNat o,
                        obstacleCount := G.obstacleCount + 1 } : GameState).snake who
        = E.snake who := by
      rw [hG]; cases who <;> rfl
    have hsc : ({ G with obstacles := setAt G.obstacles G.obstacleCount.toNat o,
                         obstacleCount := G.obstacleCount + 1 } : GameState).score who
        = E.score who := by
      rw [hG]; cases who <;> rfl
    rw [hs, hsc, hElen, hEscore]
    refine ⟨rfl, rfl, ?_, ?_, ?_, ?_, ?_, ?_⟩
    · rw [hG, hEspeed]
    · rw [hG]; exact hf1
    · rw [hG]; exact hf2
    · intro i hi
      simp only at hi ⊢
      by_cases hidx : i = G.obstacleCount.toNat
      · rw [hidx, setAt_same, hG]
        rw [hG] at hof
        exact hof
      · rw [setAt_other _ _ _ _ hidx, hG]
        apply hf3
        rw [hG] at hi hidx
        simp only at hi hidx
        omega
    · simp only
      rw [hGcnt, if_pos ⟨h3, by rw [← hGcnt, ← hmax]; exact hcap⟩]
    · intro hneg
      exact absurd ⟨h3, by rw [← hGcnt, ← hmax]; exact hcap⟩ hneg
  · have hGcnt : G.obstacleCount = game.obstacleCount := by rw [hG]; exact hEcnt
    rw [hr]
    have hs : G.snake who = E.snake who := by
      rw [hG]; cases who <;> rfl
    have hsc : G.score who = E.score who := by
      rw [hG]; cases who <;> rfl
    rw [hs, hsc, hElen, hEscore]
    rw [hGcnt, hmax] at hno
    refine ⟨rfl, rfl, ?_, ?_, ?_, ?_, ?_, ?_⟩
    · rw [hG, hEspeed]
    · rw [hG]; exact hf1
    · rw [hG]; exact hf2
    · rw [hG]; exact hf3
    · rw [hGcnt, if_neg hno]
    · intro _
      rw [hG]; exact hEobs

/-- Witness for C4, the scenario of the specification: single player, body
`[(10,10),(9,10)]` heading RIGHT, fruit at `(11,10)`, score 0.  After the call the head
is `(11,10)`, the score 1, the length 3, the speed 6, and the fruit is at the sampled
cell `(5,5)`. -/
theorem UpdateSnakeLogic_eats_witness :
    ∃ res, UpdateSnakeLogic 1 Player.P1
        (soloGame (snakeOf [⟨10, 10⟩, ⟨9, 10⟩] Direction.RIGHT) ⟨11, 10⟩) (samples [5, 5])
          = some res ∧
      res.1.player1.body 0 = ⟨11, 10⟩ ∧ res.1.fruit = ⟨5, 5⟩ ∧
      res.1.score1 = 1 ∧ res.1.player1.length = 3 ∧ res.1.speed = 6 ∧
      res.1.obstacleCount = 0 :=
  ⟨_, rfl, rfl, rfl,
    (UpdateSnakeLogic_eats 1 Player.P1
      (soloGame (snakeOf [⟨10, 10⟩, ⟨9, 10⟩] Direction.RIGHT) ⟨11, 10⟩) (samples [5, 5]) _
      rfl (by decide) rfl rfl rfl).1,
    (UpdateSnakeLogic_eats 1 Player.P1
      (soloGame (snakeOf [⟨10, 10⟩, ⟨9, 10⟩] Direction.RIGHT) ⟨11, 10⟩) (samples [5, 5]) _
      rfl (by decide) rfl rfl rfl).2.1,
    (UpdateSnakeLogic_eats 1 Player.P1
      (soloGame (snakeOf [⟨10, 10⟩, ⟨9, 10⟩] Direction.RIGHT) ⟨11, 10⟩) (samples [5, 5]) _
      rfl (by decide) rfl rfl rfl).2.2.1,
    rfl⟩

/-! ## One simulation tick -/

theorem UpdateSnakeLogic_dead (fuel : Nat) (who : Player) (game : GameState) (rnd : RandStream)
    (hdead : (game.snake who).isDead = true) :
    UpdateSnakeLogic fuel who game rnd = some (game, rnd) := by
  unfold UpdateSnakeLogic
  rw [if_pos hdead]

/-- Whatever snake a completed call of `UpdateSnakeLogic` updates, it leaves the other
snake, the other score and the mode, flags, winner and high-score fields as they were. -/
theorem UpdateSnakeLogic_keeps (fuel : Nat) (who : Player) (game : GameState) (rnd : RandStream)
    (res : GameState × RandStream) (h : UpdateSnakeLogic fuel who game rnd = some res) :
    res.1.snake who.other = game.snake who.other ∧
    res.1.score who.other = game.score who.other ∧
    res.1.gameMode = game.gameMode ∧ res.1.gameOver = game.gameOver ∧
    res.1.gamePaused = game.gamePaused ∧ res.1.winningPlayer = game.winningPlayer ∧
    res.1.highScore = game.highScore ∧ res.1.gameOverSoundPlayed = game.gameOverSoundPlayed ∧
    res.1.lastSelectedSpeed = game.lastSelectedSpeed ∧
    res.1.lastSelectedGameMode = game.lastSelectedGameMode := by
  cases hd : (game.snake who).isDead with
  | true =>
    rw [UpdateSnakeLogic_dead fuel who game rnd hd] at h
    simp only [Option.some.injEq] at h
    subst h
    simp
  | false =>
    obtain ⟨_, _, _, h4⟩ := UpdateSnakeLogic_frame fuel who game rnd res hd h
    exact h4

/-- The end-of-round evaluation changes only `gameOver`, `gameOverSoundPlayed` and
`winningPlayer`, and sets them when a snake that counts is dead. -/
theorem evaluateRoundEnd_spec (g2 : GameState) :
    (evaluateRoundEnd g2).player1 = g2.player1 ∧ (evaluateRoundEnd g2).player2 = g2.player2 ∧
    (evaluateRoundEnd g2).gameMode = g2.gameMode ∧ (evaluateRoundEnd g2).score1 = g2.score1 ∧
    (evaluateRoundEnd g2).score2 = g2.score2 ∧ (evaluateRoundEnd g2).fruit = g2.fruit ∧
    (evaluateRoundEnd g2).obstacles = g2.obstacles ∧
    (evaluateRoundEnd g2).obstacleCount = g2.obstacleCount ∧
    (evaluateRoundEnd g2).highScore = g2.highScore ∧
    (evaluateRoundEnd g2).lastSelectedSpeed = g2.lastSelectedSpeed ∧
    (evaluateRoundEnd g2).lastSelectedGameMode = g2.lastSelectedGameMode ∧
    (evaluateRoundEnd g2).gamePaused = g2.gamePaused ∧ (evaluateRoundEnd g2).speed = g2.speed ∧
    ((g2.player1.isDead = true ∨ (g2.gameMode = 2 ∧ g2.player2.isDead = true)) →
      (evaluateRoundEnd g2).gameOver = true ∧ (evaluateRoundEnd g2).gameOverSoundPlayed = true ∧
      (evaluateRoundEnd g2).winningPlayer =
        (if g2.gameMode = 1 then 0
         else if g2.player1.isDead = true ∧ g2.player2.isDead = true then 3
         else if g2.player1.isDead = true then 2
         else if g2.player2.isDead = true then 1
         else g2.winningPlayer)) ∧
    (¬ (g2.player1.isDead = true ∨ (g2.gameMode = 2 ∧ g2.player2.isDead = true)) →
      evaluateRoundEnd g2 = g2) := by
  unfold evaluateRoundEnd
  by_cases hm2 : g2.gameMode = 2 <;> by_cases hm1 : g2.gameMode = 1 <;>
    cases hd1 : g2.player1.isDead <;> cases hd2 : g2.player2.isDead <;>
    cases hs : g2.gameOverSoundPlayed <;> simp [hm1, hm2, hd1, hd2, hs]

/-- How a completed simulation tick unfolds: the update of player 1, the update of
player 2 in game mode 2, and the end-of-round evaluation of the state they leave. -/
theorem simulationTick_shape (fuel : Nat) (game : GameState) (rnd : RandStream)
    (res : GameState × RandStream) (h : simulationTick fuel game rnd = some res) :
    ∃ g1 r1 g2 r2,
      UpdateSnakeLogic fuel Player.P1 game rnd = some (g1, r1) ∧
      ((game.gameMode = 2 ∧ UpdateSnakeLogic fuel Player.P2 g1 r1 = some (g2, r2)) ∨
        (game.gameMode ≠ 2 ∧ g2 = g1 ∧ r2 = r1)) ∧
      g2.gameMode = game.gameMode ∧ res = (evaluateRoundEnd g2, r2) := by
  unfold simulationTick at h
  cases h1 : UpdateSnakeLogic fuel Player.P1 game rnd with
  | none => rw [h1] at h; exact Option.noConfusion h
  | some p1 =>
    obtain ⟨g1, r1⟩ := p1
    rw [h1] at h
    simp only at h
    have hm1 : g1.gameMode = game.gameMode := (UpdateSnakeLogic_keeps _ _ _ _ _ h1).2.2.1
    by_cases hm : game.gameMode = 2
    · have hc : (g1.gameMode == 2) = true := by rw [hm1, hm]; rfl
      rw [if_pos hc] at h
      cases h2 : UpdateSnakeLogic fuel Player.P2 g1 r1 with
      | none => rw [h2] at h; exact Option.noConfusion h
      | some p2 =>
        obtain ⟨g2, r2⟩ := p2
        rw [h2] at h
        simp only [Option.some.injEq] at h
        have hm2 : g2.gameMode = g1.gameMode := (UpdateSnakeLogic_keeps _ _ _ _ _ h2).2.2.1
        exact ⟨g1, r1, g2, r2, rfl, Or.inl ⟨hm, h2⟩, by rw [hm2, hm1], h.symm⟩
    · have hc : ¬ ((g1.gameMode == 2) = true) := by rw [hm1]; simpa using hm
      rw [if_neg hc] at h
      simp only [Option.some.injEq] at h
      exact ⟨g1, r1, g1, r1, rfl, Or.inr ⟨hm, rfl, rfl⟩, hm1, h.symm⟩

/-- C5: a completed simulation tick of a running game (not over, not paused) sets
`gameOver` exactly when, after the updates, player 1 is dead or the mode is 2 and
player 2 is dead.  In mode 2 the winner is then 3 when both are dead, 2 when only
player 1 is dead and 1 when only player 2 is dead; in mode 1 it is 0.  In particular, in
mode 2 with both snakes alive, when player 1's new head is on a cell of player 2's body,
player 1 is dead after the tick, the game is over, and the winner is 2 unless player 2
died as well. -/
theorem simulationTick_round_end (fuel : Nat) (game : GameState) (rnd : RandStream)
    (res : GameState × RandStream)
    (hover : game.gameOver = false) (_hpaused : game.gamePaused = false)
    (hres : simulationTick fuel game rnd = some res) :
    res.1.gameMode = game.gameMode ∧
    (res.1.gameOver = true ↔
      (res.1.player1.isDead = true ∨ (game.gameMode = 2 ∧ res.1.player2.isDead = true))) ∧
    (game.gameMode = 2 → res.1.gameOver = true →
      res.1.winningPlayer =
        (if res.1.player1.isDead = true ∧ res.1.player2.isDead = true then 3
         else if res.1.player1.isDead = true then 2 else 1)) ∧
    (game.gameMode = 1 → res.1.gameOver = true → res.1.winningPlayer = 0) ∧
    (game.gameMode = 2 → game.player1.isDead = false → game.player2.isDead = false →
      (∃ i : Nat, (i : Int) < game.player2.length ∧
        game.player2.body i = res.1.player1.body 0) →
      res.1.player1.isDead = true ∧ res.1.gameOver = true ∧
      (res.1.player2.isDead = false → res.1.winningPlayer = 2)) := by
  obtain ⟨g1, r1, g2, r2, hu1, hu2, hmode, hr⟩ := simulationTick_shape fuel game rnd res hres
  obtain ⟨e1, e2, e3, _, _, _, _, _, _, _, _, _, _, eover, enot⟩ := evaluateRoundEnd_spec g2
  have hk1 := UpdateSnakeLogic_keeps _ _ _ _ _ hu1
  have hg2over : g2.gameOver = false := by
    rcases hu2 with ⟨_, hu2⟩ | ⟨_, hg, _⟩
    · rw [(UpdateSnakeLogic_keeps _ _ _ _ _ hu2).2.2.2.1, hk1.2.2.2.1, hover]
    · rw [hg, hk1.2.2.2.1, hover]
  subst hr
  simp only
  rw [e1, e2, e3, hmode]
  have hiff : (evaluateRoundEnd g2).gameOver = true ↔
      (g2.player1.isDead = true ∨ (game.gameMode = 2 ∧ g2.player2.isDead = true)) := by
    constructor
    · intro ho
      by_contra hc
      rw [← hmode] at hc
      rw [enot hc, hg2over] at ho
      exact Bool.noConfusion ho
    · intro hc
      rw [← hmode] at hc
      exact (eover hc).1
  refine ⟨rfl, hiff, ?_, ?_, ?_⟩
  · intro hm ho
    have hc := hiff.1 ho
    rw [← hmode] at hc
    rw [(eover hc).2.2]
    rw [hmode, hm] at hc ⊢
    cases hd1 : g2.player1.isDead <;> cases hd2 : g2.player2.isDead <;> simp_all
  · intro hm ho
    have hc := hiff.1 ho
    rw [← hmode] at hc
    rw [(eover hc).2.2, hmode, hm]
    simp
  · intro hm hd1 hd2 hhit
    rcases hu2 with ⟨_, hu2⟩ | ⟨hne, _, _⟩
    · have hk2 := UpdateSnakeLogic_keeps _ _ _ _ _ hu2
      have hp1 : g2.player1 = g1.player1 := hk2.1
      obtain ⟨hbody, _, hdead, _⟩ :=
        UpdateSnakeLogic_frame fuel Player.P1 game rnd (g1, r1) hd1 hu1
      rw [hp1] at hhit ⊢
      have hdead1 : g1.player1.isDead = true := by
        have hb : g1.player1.body = (movedSnake game.player1).body := hbody
        have hdd : g1.player1.isDead = collides (game.setSnake Player.P1 (movedSnake game.player1))
            (movedSnake game.player1) game.player2 := hdead
        rw [hdd, collides_iff]
        right; right; right
        rw [hb] at hhit
        exact ⟨hm, hd2, hhit⟩
      have hc : g2.player1.isDead = true ∨ (g2.gameMode = 2 ∧ g2.player2.isDead = true) :=
        Or.inl (by rw [hp1]; exact hdead1)
      refine ⟨hdead1, (eover hc).1, ?_⟩
      intro hd2'
      rw [(eover hc).2.2, hmode, hm, hp1, hdead1, hd2']
      simp
    · exact absurd hm hne

/-- Witness for C5: mode 2, player 1 at `[(10,10),(9,10)]` heading RIGHT, player 2 at
`[(11,10),(11,11)]` heading UP.  Player 1 runs into player 2's old head cell and dies,
player 2 moves on alive: the game is over and player 2 wins. -/
theorem simulationTick_round_end_witness :
    ∃ res, simulationTick 0
        (duoGame (snakeOf [⟨10, 10⟩, ⟨9, 10⟩] Direction.RIGHT)
          (snakeOf [⟨11, 10⟩, ⟨11, 11⟩] Direction.UP) ⟨20, 20⟩) (samples []) = some res ∧
      res.1.player1.isDead = true ∧ res.1.player2.isDead = false ∧
      res.1.gameOver = true ∧ res.1.winningPlayer = 2 :=
  ⟨_, rfl, rfl, rfl,
    ((simulationTick_round_end 0
        (duoGame (snakeOf [⟨10, 10⟩, ⟨9, 10⟩] Direction.RIGHT)
          (snakeOf [⟨11, 10⟩, ⟨11, 11⟩] Direction.UP) ⟨20, 20⟩) (samples []) _
        rfl rfl rfl).2.2.2.2 rfl rfl rfl ⟨0, by decide, rfl⟩).2.1,
    ((simulationTick_round_end 0
        (duoGame (snakeOf [⟨10, 10⟩, ⟨9, 10⟩] Direction.RIGHT)
          (snakeOf [⟨11, 10⟩, ⟨11, 11⟩] Direction.UP) ⟨20, 20⟩) (samples []) _
        rfl rfl rfl).2.2.2.2 rfl rfl rfl ⟨0, by decide, rfl⟩).2.2 rfl⟩

/-! ## Termination of the retry loops -/

theorem sampledCell_zero (rnd : RandStream) :
    sampledCell rnd 0 = ⟨cRem (rnd 0 : Int) GRID_W, cRem (rnd 1 : Int) GRID_H⟩ :=
  rfl

theorem sampledCell_shift (rnd : RandStream) (k : Nat) :
    sampledCell (fun n => rnd (n + 1 + 1)) k = sampledCell rnd (k + 1) := by
  have h1 : 2 * k + 1 + 1 = 2 * (k + 1) := by omega
  have h2 : 2 * k + 1 + 1 + 1 = 2 * (k + 1) + 1 := by omega
  simp only [sampledCell, h1, h2]

/-- The fruit loop ends as soon as the bound on its rounds exceeds the index of a
sampled cell that is not rejected. -/
theorem GenerateNewFruitPosition_terminates (fuel : Nat) (game : GameState) (rnd : RandStream)
    (k : Nat) (hk : k < fuel) (hfree : fruitRejected game (sampledCell rnd k) = false) :
    ∃ res, GenerateNewFruitPosition fuel game rnd = some res := by
  induction fuel generalizing rnd k with
  | zero => omega
  | succ n ih =>
    simp only [GenerateNewFruitPosition, rand]
    split
    · next hrej =>
      cases k with
      | zero =>
        rw [sampledCell_zero] at hfree
        rw [hfree] at hrej
        exact Bool.noConfusion hrej
      | succ j =>
        apply ih _ j (by omega)
        rw [sampledCell_shift]
        exact hfree
    · exact ⟨_, rfl⟩

/-- The obstacle loop ends as soon as the bound on its rounds exceeds the index of a
sampled cell that is not rejected. -/
theorem AddObstacle_terminates (fuel : Nat) (game : GameState) (rnd : RandStream)
    (k : Nat) (hk : k < fuel) (hfree : obstacleRejected game (sampledCell rnd k) = false) :
    ∃ res, AddObstacle fuel game rnd = some res := by
  have hloop : ∀ (n : Nat) (r : RandStream) (j : Nat), j < n →
      obstacleRejected game (sampledCell r j) = false →
      ∃ p, sampleObstacle n game r = some p := by
    intro n
    induction n with
    | zero => intro r j hj; omega
    | succ n ih =>
      intro r j hj hf
      simp only [sampleObstacle, rand]
      split
      · next hrej =>
        cases j with
        | zero =>
          rw [sampledCell_zero] at hf
          rw [hf] at hrej
          exact Bool.noConfusion hrej
        | succ i =>
          apply ih _ i (by omega)
          rw [sampledCell_shift]
          exact hf
      · exact ⟨_, rfl⟩
  unfold AddObstacle
  split
  · exact ⟨_, rfl⟩
  · obtain ⟨p, hp⟩ := hloop fuel rnd k hk hfree
    rw [hp]
    exact ⟨_, rfl⟩

/-! ## Placement of fruit and obstacles -/

/-- C6: whenever the retry loop of `GenerateNewFruitPosition` ends, the cell stored in
`fruit` equals no body cell of player 1, no body cell of player 2 in mode 2, and no
stored obstacle, and nothing else of the state changes.  Whenever `AddObstacle` is
called with `obstacleCount < 100` and its loop ends, one cell is appended at index
`obstacleCount`; it is not the fruit cell, not one of the obstacles stored before, and
no such snake cell, and the obstacles stored before are kept. -/
theorem placement_avoids_occupied (fuel : Nat) (game : GameState) (rnd : RandStream) :
    (∀ res, GenerateNewFruitPosition fuel game rnd = some res →
      res.1 = { game with fruit := res.1.fruit } ∧
      (∀ i : Nat, (i : Int) < game.player1.length → game.player1.body i ≠ res.1.fruit) ∧
      (game.gameMode = 2 →
        ∀ i : Nat, (i : Int) < game.player2.length → game.player2.body i ≠ res.1.fruit) ∧
      (∀ i : Nat, (i : Int) < game.obstacleCount → game.obstacles i ≠ res.1.fruit)) ∧
    (∀ res, game.obstacleCount < 100 → AddObstacle fuel game rnd = some res →
      res.1.obstacleCount = game.obstacleCount + 1 ∧
      res.1.obstacles game.obstacleCount.toNat ≠ game.fruit ∧
      (∀ i : Nat, (i : Int) < game.obstacleCount →
        res.1.obstacles i = game.obstacles i ∧
        game.obstacles i ≠ res.1.obstacles game.obstacleCount.toNat) ∧
      (∀ i : Nat, (i : Int) < game.player1.length →
        game.player1.body i ≠ res.1.obstacles game.obstacleCount.toNat) ∧
      (game.gameMode = 2 → ∀ i : Nat, (i : Int) < game.player2.length →
        game.player2.body i ≠ res.1.obstacles game.obstacleCount.toNat)) := by
  constructor
  · intro res h
    obtain ⟨h1, h2⟩ := GenerateNewFruitPosition_some fuel game rnd res h
    exact ⟨h1, fruitRejected_false game _ h2⟩
  · intro res hcap h
    rcases AddObstacle_some fuel game rnd res h with ⟨hfull, _⟩ | ⟨_, o, ho, hr⟩
    · have hm : MAX_OBSTACLES = 100 := rfl
      omega
    · obtain ⟨hf, hobs, hp1, hp2⟩ := obstacleRejected_false game o ho
      rw [hr]
      simp only [setAt_same]
      refine ⟨trivial, hf, ?_, hp1, hp2⟩
      intro i hi
      have hne : i ≠ game.obstacleCount.toNat := by omega
      rw [setAt_other _ _ _ _ hne]
      exact ⟨rfl, hobs i hi⟩

/-- Witness for C6: in the seeded single-player state the samples `(10,10)` and `(9,10)`
are snake cells and are rejected, `(5,5)` is stored as the fruit; for the obstacle the
sample `(5,5)` is the fruit cell and is rejected, `(7,7)` is appended. -/
theorem placement_avoids_occupied_witness :
    (∃ res, GenerateNewFruitPosition 3
        (soloGame (snakeOf [⟨10, 10⟩, ⟨9, 10⟩] Direction.RIGHT) ⟨0, 0⟩)
        (samples [10, 10, 9, 10, 5, 5]) = some res ∧
      res.1.fruit = ⟨5, 5⟩ ∧ (⟨10, 10⟩ : Vector2Int) ≠ res.1.fruit) ∧
    (∃ res, AddObstacle 2
        (soloGame (snakeOf [⟨10, 10⟩, ⟨9, 10⟩] Direction.RIGHT) ⟨5, 5⟩)
        (samples [5, 5, 7, 7]) = some res ∧
      res.1.obstacleCount = 1 ∧ res.1.obstacles 0 = ⟨7, 7⟩ ∧
      res.1.obstacles 0 ≠ (⟨5, 5⟩ : Vector2Int)) :=
  ⟨⟨_, rfl, rfl,
      ((placement_avoids_occupied 3
          (soloGame (snakeOf [⟨10, 10⟩, ⟨9, 10⟩] Direction.RIGHT) ⟨0, 0⟩)
          (samples [10, 10, 9, 10, 5, 5])).1 _ rfl).2.1 0 (by decide)⟩,
    ⟨_, rfl, rfl, rfl,
      ((placement_avoids_occupied 2
          (soloGame (snakeOf [⟨10, 10⟩, ⟨9, 10⟩] Direction.RIGHT) ⟨5, 5⟩)
          (samples [5, 5, 7, 7])).2 _ (by decide) rfl).2.1⟩⟩

/-! ## The high-score step -/

theorem currentMaxScore_eq (game : GameState) :
    currentMaxScore game =
      if game.gameMode = 2 then max game.score1 game.score2 else game.score1 := by
  unfold currentMaxScore
  by_cases hm : game.gameMode = 2
  · simp only [hm, beq_self_eq_true, if_true]
    split <;> omega
  · have hb : ¬ ((game.gameMode == 2) = true) := by simpa using hm
    simp only [if_neg hb, if_neg hm]

theorem updateHighScore_eq (g : GameState) :
    updateHighScore g =
      if g.highScore < currentMaxScore g then
        ({ g with highScore := currentMaxScore g }, some (currentMaxScore g))
      else (g, none) := by
  unfold updateHighScore
  by_cases hc : currentMaxScore g > g.highScore
  · rw [if_pos hc]
  · rw [if_neg hc]

/-- C7: with `best` the score of player 1 outside mode 2 and the larger of the two
scores in mode 2, the high-score step leaves `highScore = max highScore best` and
changes nothing else; it changes `highScore`, and writes the file, only when `best` is
strictly greater than the old high score, and the number written is the new high score;
running the step again on the state it leaves changes nothing and writes nothing; the
high score never decreases. -/
theorem updateHighScore_spec (game : GameState) (best : Int)
    (hbest : best = if game.gameMode = 2 then max game.score1 game.score2 else game.score1) :
    (updateHighScore game).1 = { game with highScore := max game.highScore best } ∧
    ((updateHighScore game).1.highScore ≠ game.highScore → game.highScore < best) ∧
    ((updateHighScore game).2 = if game.highScore < best then some best else none) ∧
    updateHighScore (updateHighScore game).1 = ((updateHighScore game).1, none) ∧
    game.highScore ≤ (updateHighScore game).1.highScore := by
  rw [← currentMaxScore_eq] at hbest
  have hstep := updateHighScore_eq
  have hcm : ∀ (g : GameState) (v : Int),
      currentMaxScore { g with highScore := v } = currentMaxScore g := fun _ _ => rfl
  by_cases hc : game.highScore < best
  · have hmax : max game.highScore best = best := max_eq_right (le_of_lt hc)
    have h1 : updateHighScore game = ({ game with highScore := best }, some best) := by
      rw [hstep, ← hbest, if_pos hc]
    rw [h1, hmax]
    refine ⟨rfl, fun _ => hc, by rw [if_pos hc], ?_, le_of_lt hc⟩
    rw [hstep, hcm, ← hbest, if_neg (lt_irrefl best)]
  · have hmax : max game.highScore best = game.highScore := max_eq_left (not_lt.1 hc)
    have h1 : updateHighScore game = (game, none) := by
      rw [hstep, ← hbest, if_neg hc]
    rw [h1, hmax]
    refine ⟨rfl, fun hne => absurd rfl hne, by rw [if_neg hc], ?_, le_refl _⟩
    exact h1

/-- Witness for C7: in mode 2 with scores 4 and 7 and a stored high score of 5 the step
stores 7 and writes 7. -/
theorem updateHighScore_spec_witness :
    (updateHighScore { duoGame zeroSnake zeroSnake ⟨0, 0⟩ with
        score1 := 4, score2 := 7, highScore := 5, gameOver := true }).1.highScore = 7 ∧
    (updateHighScore { duoGame zeroSnake zeroSnake ⟨0, 0⟩ with
        score1 := 4, score2 := 7, highScore := 5, gameOver := true }).2 = some 7 :=
  ⟨(congrArg GameState.highScore (updateHighScore_spec
      { duoGame zeroSnake zeroSnake ⟨0, 0⟩ with
        score1 := 4, score2 := 7, highScore := 5, gameOver := true } 7 (by decide)).1).trans
      (by decide),
    (updateHighScore_spec
      { duoGame zeroSnake zeroSnake ⟨0, 0⟩ with
        score1 := 4, score2 := 7, highScore := 5, gameOver := true } 7 (by decide)).2.2.1.trans
      (by decide)⟩

/-! ## Initialisation and restart -/

/-- What a completed `InitGame` leaves: the seeded snakes, zero scores, no obstacles,
cleared flags, the chosen speed and mode, and the high score it found. -/
theorem InitGame_spec (fuel : Nat) (game : GameState) (speed mode : Int) (seed : RandStream)
    (res : GameState × RandStream) (h : InitGame fuel game speed mode seed = some res) :
    (res.1.player1.isDead = false ∧ res.1.player1.length = 2 ∧
      res.1.player1.body 0 = ⟨10, 10⟩ ∧ res.1.player1.body 1 = ⟨9, 10⟩ ∧
      res.1.player1.dir = Direction.RIGHT) ∧
    (mode = 2 → res.1.player2.isDead = false ∧ res.1.player2.length = 2 ∧
      res.1.player2.body 0 = ⟨30, 20⟩ ∧ res.1.player2.body 1 = ⟨31, 20⟩ ∧
      res.1.player2.dir = Direction.LEFT) ∧
    (mode ≠ 2 → res.1.player2.isDead = true ∧ res.1.player2.length = 0) ∧
    res.1.score1 = 0 ∧ res.1.score2 = 0 ∧ res.1.obstacleCount = 0 ∧
    res.1.gameOver = false ∧ res.1.gamePaused = false ∧ res.1.winningPlayer = 0 ∧
    res.1.gameOverSoundPlayed = false ∧
    res.1.speed = speed ∧ res.1.gameMode = mode ∧
    res.1.lastSelectedSpeed = speed ∧ res.1.lastSelectedGameMode = mode ∧
    res.1.highScore = game.highScore := by
  unfold InitGame at h
  simp only at h
  obtain ⟨h1, _⟩ := GenerateNewFruitPosition_some _ _ _ _ h
  rw [h1]
  have h2 : (2 : Int).toNat = 2 := rfl
  by_cases hm : mode = 2
  · subst hm
    simp [h2, seedBody, setAt, GRID_W_eq, GRID_H_eq]
  · have hb : ¬ ((mode == 2) = true) := by simpa using hm
    simp [h2, seedBody, setAt, hm]

theorem simulationTick_keeps (fuel : Nat) (game : GameState) (rnd : RandStream)
    (res : GameState × RandStream) (h : simulationTick fuel game rnd = some res) :
    res.1.lastSelectedSpeed = game.lastSelectedSpeed ∧
    res.1.lastSelectedGameMode = game.lastSelectedGameMode ∧
    res.1.highScore = game.highScore := by
  obtain ⟨g1, r1, g2, r2, hu1, hu2, _, hr⟩ := simulationTick_shape fuel game rnd res h
  obtain ⟨_, _, _, _, _, _, _, _, e9, e10, e11, _⟩ := evaluateRoundEnd_spec g2
  have hk1 := UpdateSnakeLogic_keeps _ _ _ _ _ hu1
  subst hr
  simp only
  rw [e9, e10, e11]
  rcases hu2 with ⟨_, hu2⟩ | ⟨_, hg, _⟩
  · have hk2 := UpdateSnakeLogic_keeps _ _ _ _ _ hu2
    exact ⟨hk2.2.2.2.2.2.2.2.2.1.trans hk1.2.2.2.2.2.2.2.2.1,
      hk2.2.2.2.2.2.2.2.2.2.trans hk1.2.2.2.2.2.2.2.2.2,
      hk2.2.2.2.2.2.2.1.trans hk1.2.2.2.2.2.2.1⟩
  · rw [hg]
    exact ⟨hk1.2.2.2.2.2.2.2.2.1, hk1.2.2.2.2.2.2.2.2.2, hk1.2.2.2.2.2.2.1⟩

theorem updateHighScore_keeps (game : GameState) :
    (updateHighScore game).1.lastSelectedSpeed = game.lastSelectedSpeed ∧
    (updateHighScore game).1.lastSelectedGameMode = game.lastSelectedGameMode ∧
    game.highScore ≤ (updateHighScore game).1.highScore := by
  rw [updateHighScore_eq]
  split
  · next hc => exact ⟨rfl, rfl, le_of_lt hc⟩
  · exact ⟨rfl, rfl, le_refl _⟩

theorem applyControls_keeps (inp : FrameInput) (game : GameState) :
    (applyControls inp game).lastSelectedSpeed = game.lastSelectedSpeed ∧
    (applyControls inp game).lastSelectedGameMode = game.lastSelectedGameMode ∧
    (applyControls inp game).highScore = game.highScore := by
  unfold applyControls
  simp only
  split <;> split <;> (try split) <;> exact ⟨rfl, rfl, rfl⟩

theorem restartIfAsked_keeps (fuel : Nat) (inp : FrameInput) (game : GameState)
    (rnd : RandStream) (res : GameState × RandStream)
    (h : restartIfAsked fuel inp game rnd = some res) :
    res.1.lastSelectedSpeed = game.lastSelectedSpeed ∧
    res.1.lastSelectedGameMode = game.lastSelectedGameMode ∧
    res.1.highScore = game.highScore := by
  unfold restartIfAsked at h
  split at h
  · have hs := InitGame_spec _ _ _ _ _ _ h
    exact ⟨hs.2.2.2.2.2.2.2.2.2.2.2.2.1, hs.2.2.2.2.2.2.2.2.2.2.2.2.2.1,
      hs.2.2.2.2.2.2.2.2.2.2.2.2.2.2⟩
  · simp only [Option.some.injEq] at h
    subst h
    exact ⟨rfl, rfl, rfl⟩

theorem tickIfDue_keeps (fuel : Nat) (inp : FrameInput) (game : GameState)
    (rnd : RandStream) (res : GameState × RandStream)
    (h : tickIfDue fuel inp game rnd = some res) :
    res.1.lastSelectedSpeed = game.lastSelectedSpeed ∧
    res.1.lastSelectedGameMode = game.lastSelectedGameMode ∧
    res.1.highScore = game.highScore := by
  unfold tickIfDue at h
  split at h
  · exact simulationTick_keeps _ _ _ _ h
  · simp only [Option.some.injEq] at h
    subst h
    exact ⟨rfl, rfl, rfl⟩

theorem highScoreIfOver_keeps (game : GameState) :
    (highScoreIfOver game).1.lastSelectedSpeed = game.lastSelectedSpeed ∧
    (highScoreIfOver game).1.lastSelectedGameMode = game.lastSelectedGameMode ∧
    game.highScore ≤ (highScoreIfOver game).1.highScore := by
  unfold highScoreIfOver
  split
  · exact updateHighScore_keeps game
  · exact ⟨rfl, rfl, le_refl _⟩

/-- A frame of the playing state keeps the speed and mode chosen for the round and never
lowers the high score. -/
theorem playingFrame_keeps (fuel : Nat) (inp : FrameInput) (game : GameState) (rnd : RandStream)
    (res : GameState × RandStream × Option Int)
    (h : playingFrame fuel inp game rnd = some res) :
    res.1.lastSelectedSpeed = game.lastSelectedSpeed ∧
    res.1.lastSelectedGameMode = game.lastSelectedGameMode ∧
    game.highScore ≤ res.1.highScore := by
  unfold playingFrame at h
  cases h1 : restartIfAsked fuel inp (applyControls inp game) rnd with
  | none => rw [h1] at h; exact Option.noConfusion h
  | some p1 =>
    obtain ⟨g1, r1⟩ := p1
    rw [h1] at h
    simp only at h
    cases h2 : tickIfDue fuel inp g1 r1 with
    | none => rw [h2] at h; exact Option.noConfusion h
    | some p2 =>
      obtain ⟨g2, r2⟩ := p2
      rw [h2] at h
      simp only [Option.some.injEq] at h
      subst h
      have ha := applyControls_keeps inp game
      have hb := restartIfAsked_keeps _ _ _ _ _ h1
      have hc := tickIfDue_keeps _ _ _ _ _ h2
      have hd := highScoreIfOver_keeps g2
      simp only at hb hc
      refine ⟨?_, ?_, ?_⟩
      · rw [hd.1, hc.1, hb.1, ha.1]
      · rw [hd.2.1, hc.2.1, hb.2.1, ha.2.1]
      · rw [← ha.2.2, ← hb.2.2, ← hc.2.2]
        exact hd.2.2

/-- Every state of a run of frames carries the speed and mode the run started with, and
a high score at least as large as the one it started with. -/
theorem playFrames_keeps (fuel : Nat) (inputs : List FrameInput) (game : GameState)
    (rnd : RandStream) (res : GameState × RandStream)
    (h : playFrames fuel inputs game rnd = some res) :
    res.1.lastSelectedSpeed = game.lastSelectedSpeed ∧
    res.1.lastSelectedGameMode = game.lastSelectedGameMode ∧
    game.highScore ≤ res.1.highScore := by
  induction inputs generalizing game rnd with
  | nil =>
    simp only [playFrames, Option.some.injEq] at h
    subst h
    exact ⟨rfl, rfl, le_refl _⟩
  | cons inp rest ih =>
    simp only [playFrames] at h
    cases h1 : playingFrame fuel inp game rnd with
    | none => rw [h1] at h; exact Option.noConfusion h
    | some p =>
      obtain ⟨g1, r1, w⟩ := p
      rw [h1] at h
      have hk := playingFrame_keeps _ _ _ _ _ h1
      have hr := ih g1 r1 h
      simp only at hk
      exact ⟨hr.1.trans hk.1, hr.2.1.trans hk.2.1, le_trans hk.2.2 hr.2.2⟩

/-- C8: let a round start with `InitGame` at the chosen speed and mode, and let any run of
frames of the playing state lead to a state `reached`.  A completed restart from there
(`InitGame` with the state's `lastSelectedSpeed` and `lastSelectedGameMode`) leaves
player 1 alive with length 2, body `[(10,10),(9,10)]` and heading RIGHT; in mode 2
player 2 alive with length 2, body `[(30,20),(31,20)]` and heading LEFT; both scores 0;
no obstacles; `gameOver` and `gamePaused` false; `winningPlayer` 0; the speed and mode
chosen at the start of the round; and the high score of `reached`. -/
theorem restart_reproduces_initial_state (fuel : Nat) (g0 : GameState) (speed mode : Int)
    (seed0 : RandStream) (start : GameState × RandStream) (inputs : List FrameInput)
    (reached : GameState × RandStream) (seed : RandStream) (res : GameState × RandStream)
    (hstart : InitGame fuel g0 speed mode seed0 = some start)
    (hrun : playFrames fuel inputs start.1 start.2 = some reached)
    (hres : InitGame fuel reached.1 reached.1.lastSelectedSpeed
      reached.1.lastSelectedGameMode seed = some res) :
    (res.1.player1.isDead = false ∧ res.1.player1.length = 2 ∧
      res.1.player1.body 0 = ⟨10, 10⟩ ∧ res.1.player1.body 1 = ⟨9, 10⟩ ∧
      res.1.player1.dir = Direction.RIGHT) ∧
    (mode = 2 → res.1.player2.isDead = false ∧ res.1.player2.length = 2 ∧
      res.1.player2.body 0 = ⟨30, 20⟩ ∧ res.1.player2.body 1 = ⟨31, 20⟩ ∧
      res.1.player2.dir = Direction.LEFT) ∧
    res.1.score1 = 0 ∧ res.1.score2 = 0 ∧ res.1.obstacleCount = 0 ∧
    res.1.gameOver = false ∧ res.1.gamePaused = false ∧ res.1.winningPlayer = 0 ∧
    res.1.speed = speed ∧ res.1.gameMode = mode ∧
    res.1.highScore = reached.1.highScore := by
  have hs := InitGame_spec _ _ _ _ _ _ hstart
  have hk := playFrames_keeps _ _ _ _ _ hrun
  have hsp : reached.1.lastSelectedSpeed = speed := hk.1.trans hs.2.2.2.2.2.2.2.2.2.2.2.2.1
  have hmo : reached.1.lastSelectedGameMode = mode := hk.2.1.trans hs.2.2.2.2.2.2.2.2.2.2.2.2.2.1
  rw [hsp, hmo] at hres
  obtain ⟨r1, r2, _, r4, r5, r6, r7, r8, r9, _, r11, r12, _, _, r15⟩ :=
    InitGame_spec _ _ _ _ _ _ hres
  exact ⟨r1, r2, r4, r5, r6, r7, r8, r9, r11, r12, r15⟩

/-- Witness for C8: a two-player round started at speed 5, one frame with a tick, then a
restart: the snakes are back on their seed cells, the scores are 0, the speed is 5. -/
theorem restart_reproduces_initial_state_witness :
    ∃ start reached res,
      InitGame 1 zeroGame 5 2 (samples [20, 20]) = some start ∧
      playFrames 1
        [{ p1Keys := ⟨false, true, false, false⟩, p2Keys := ⟨false, false, false, false⟩,
           keySpace := false, keyEnter := false, timerDue := true, seed := samples [] }]
        start.1 start.2 = some reached ∧
      reached.1.player1.body 0 = ⟨10, 11⟩ ∧
      InitGame 1 reached.1 reached.1.lastSelectedSpeed reached.1.lastSelectedGameMode
        (samples [3, 3]) = some res ∧
      res.1.player1.body 0 = ⟨10, 10⟩ ∧ res.1.player2.body 0 = ⟨30, 20⟩ ∧
      res.1.speed = 5 ∧ res.1.score1 = 0 :=
  ⟨_, _, _, rfl, rfl, rfl, rfl,
    (restart_reproduces_initial_state 1 zeroGame 5 2 (samples [20, 20]) _
      [{ p1Keys := ⟨false, true, false, false⟩, p2Keys := ⟨false, false, false, false⟩,
         keySpace := false, keyEnter := false, timerDue := true, seed := samples [] }]
      _ (samples [3, 3]) _ rfl rfl rfl).1.2.2.1,
    ((restart_reproduces_initial_state 1 zeroGame 5 2 (samples [20, 20]) _
      [{ p1Keys := ⟨false, true, false, false⟩, p2Keys := ⟨false, false, false, false⟩,
         keySpace := false, keyEnter := false, timerDue := true, seed := samples [] }]
      _ (samples [3, 3]) _ rfl rfl rfl).2.1 rfl).2.2.1,
    (restart_reproduces_initial_state 1 zeroGame 5 2 (samples [20, 20]) _
      [{ p1Keys := ⟨false, true, false, false⟩, p2Keys := ⟨false, false, false, false⟩,
         keySpace := false, keyEnter := false, timerDue := true, seed := samples [] }]
      _ (samples [3, 3]) _ rfl rfl rfl).2.2.2.2.2.2.2.2.1,
    (restart_reproduces_initial_state 1 zeroGame 5 2 (samples [20, 20]) _
      [{ p1Keys := ⟨false, true, false, false⟩, p2Keys := ⟨false, false, false, false⟩,
         keySpace := false, keyEnter := false, timerDue := true, seed := samples [] }]
      _ (samples [3, 3]) _ rfl rfl rfl).2.2.1⟩

/-! ## Length of the snake -/

/-- The snake a completed call of `UpdateSnakeLogic` on a live snake stores: the moved
snake with its collision flag when nothing is eaten, the moved snake grown by one slot
(up to the maximum) when the fruit is eaten. -/
theorem UpdateSnakeLogic_snake (fuel : Nat) (who : Player) (game : GameState) (rnd : RandStream)
    (res : GameState × RandStream) (hlive : (game.snake who).isDead = false)
    (h : UpdateSnakeLogic fuel who game rnd = some res) :
    (res.1.snake who).length = (game.snake who).length ∨
    ((res.1.snake who).isDead = false ∧
      (res.1.snake who).body 0 = game.fruit ∧
      (res.1.snake who).length =
        if (game.snake who).length < MAX_SNAKE_LENGTH then (game.snake who).length + 1
        else (game.snake who).length) := by
  rcases UpdateSnakeLogic_live fuel who game rnd res hlive h with
    ⟨_, hres⟩ | ⟨_, hf, g2, r2, hG, hA⟩
  · left
    subst hres
    simp
  · right
    obtain ⟨f, hg2, _⟩ := GenerateNewFruitPosition_eq _ _ _ _ _ hG
    subst hg2
    have hf' := (IsCollision_iff _ _).1 hf
    rcases hA with ⟨_, hA⟩ | ⟨_, hA⟩
    · rcases AddObstacle_some _ _ _ _ hA with ⟨_, hres⟩ | ⟨_, o, _, hres⟩
      · subst hres
        cases who <;>
          simp_all [GameState.snake, GameState.setSnake, GameState.score, GameState.setScore]
      · rw [hres]
        cases who <;>
          simp_all [GameState.snake, GameState.setSnake, GameState.score, GameState.setScore]
    · subst hA
      cases who <;>
        simp_all [GameState.snake, GameState.setSnake, GameState.score, GameState.setScore]

/-- C9: for a snake with `0 ≤ length ≤ 100`, dead or alive, after a completed call of
`UpdateSnakeLogic` the length is the old length or the old length plus 1, and it is at
most 100. -/
theorem UpdateSnakeLogic_length (fuel : Nat) (who : Player) (game : GameState)
    (rnd : RandStream) (res : GameState × RandStream)
    (_hlen0 : 0 ≤ (game.snake who).length) (hlen100 : (game.snake who).length ≤ 100)
    (hres : UpdateSnakeLogic fuel who game rnd = some res) :
    ((res.1.snake who).length = (game.snake who).length ∨
      (res.1.snake who).length = (game.snake who).length + 1) ∧
    (res.1.snake who).length ≤ 100 := by
  have hm : MAX_SNAKE_LENGTH = 100 := rfl
  cases hd : (game.snake who).isDead with
  | true =>
    rw [UpdateSnakeLogic_dead fuel who game rnd hd] at hres
    simp only [Option.some.injEq] at hres
    subst hres
    exact ⟨Or.inl rfl, hlen100⟩
  | false =>
    rcases UpdateSnakeLogic_snake fuel who game rnd res hd hres with hsame | ⟨_, _, hgrow⟩
    · rw [hsame]
      exact ⟨Or.inl rfl, hlen100⟩
    · rw [hgrow, hm]
      split
      · exact ⟨Or.inr rfl, by omega⟩
      · exact ⟨Or.inl rfl, hlen100⟩

/-- Witness for C9: the snake `[(10,10),(9,10)]` eats the fruit at `(11,10)` and has
length 3 afterwards. -/
theorem UpdateSnakeLogic_length_witness :
    ∃ res, UpdateSnakeLogic 1 Player.P1
        (soloGame (snakeOf [⟨10, 10⟩, ⟨9, 10⟩] Direction.RIGHT) ⟨11, 10⟩) (samples [5, 5])
          = some res ∧
      res.1.player1.length = 3 ∧ res.1.player1.length ≤ 100 :=
  ⟨_, rfl, rfl,
    (UpdateSnakeLogic_length 1 Player.P1
      (soloGame (snakeOf [⟨10, 10⟩, ⟨9, 10⟩] Direction.RIGHT) ⟨11, 10⟩) (samples [5, 5]) _
      (by decide) (by decide) rfl).2⟩

theorem IsOnAnySnake_congr (g g' : GameState) (pos : Vector2Int)
    (h1 : g.player1 = g'.player1) (h2 : g.player2 = g'.player2) (h3 : g.gameMode = g'.gameMode) :
    IsOnAnySnake g pos = IsOnAnySnake g' pos := by
  unfold IsOnAnySnake
  rw [h1, h2, h3]

theorem fruitRejected_not_on_snake (game : GameState) (f : Vector2Int)
    (h : fruitRejected game f = false) : IsOnAnySnake game f = false := by
  unfold fruitRejected at h
  simp only [Bool.or_eq_false_iff] at h
  exact h.1.2

theorem obstacleRejected_not_on_snake (game : GameState) (o : Vector2Int)
    (h : obstacleRejected game o = false) : IsOnAnySnake game o = false := by
  unfold obstacleRejected at h
  simp only [Bool.or_eq_false_iff] at h
  exact h.2

/-! ## The slot behind the old tail -/

/-- C10: when a live snake of length `L` with `1 ≤ L < 100` eats the fruit, a completed
call of `UpdateSnakeLogic` raises the length to `L + 1` and leaves the slot `body[L]` as
it was before the call.  That slot counts as a snake cell for `IsOnAnySnake` (for
player 1 always, for player 2 in mode 2, where alone `main` updates it): the fruit stored
in this call is not on it, nor is an obstacle appended in this call. -/
theorem UpdateSnakeLogic_stale_tail (fuel : Nat) (who : Player) (game : GameState)
    (rnd : RandStream) (res : GameState × RandStream) (L : Nat)
    (hlive : (game.snake who).isDead = false)
    (hL : (game.snake who).length = (L : Int)) (hL1 : 1 ≤ L) (hL100 : L < 100)
    (hcall : who = Player.P1 ∨ game.gameMode = 2)
    (hres : UpdateSnakeLogic fuel who game rnd = some res)
    (hsurv : (res.1.snake who).isDead = false)
    (hfruit : (res.1.snake who).body 0 = game.fruit) :
    (res.1.snake who).length = (L : Int) + 1 ∧
    (res.1.snake who).body L = (game.snake who).body L ∧
    IsOnAnySnake res.1 ((game.snake who).body L) = true ∧
    res.1.fruit ≠ (game.snake who).body L ∧
    (res.1.obstacleCount = game.obstacleCount + 1 →
      res.1.obstacles game.obstacleCount.toNat ≠ (game.snake who).body L) := by
  obtain ⟨E, G, f, hE, hrej, hG, hcase⟩ :=
    UpdateSnakeLogic_eat_shape fuel who game rnd res hlive hres hsurv hfruit
  have hm : MAX_SNAKE_LENGTH = 100 := rfl
  have hlt : (game.snake who).length < MAX_SNAKE_LENGTH := by rw [hL, hm]; omega
  have hEs : E.snake who =
      { movedSnake (game.snake who) with isDead := false, length := (L : Int) + 1 } := by
    rw [hE, snake_setScore, snake_setSnake, if_pos hlt, hL]
  have hslot : (E.snake who).body L = (game.snake who).body L := by
    rw [hEs]
    exact movedSnake_beyond _ L hL1 (by rw [hL])
  have hEmode : E.gameMode = game.gameMode := by
    rw [hE]; cases who <;> rfl
  have hEcnt : E.obstacleCount = game.obstacleCount := by
    rw [hE]; cases who <;> rfl
  have hon : IsOnAnySnake E ((game.snake who).body L) = true := by
    rw [IsOnAnySnake_iff]
    have hlen : (E.snake who).length = (L : Int) + 1 := by rw [hEs]
    cases who with
    | P1 => exact Or.inl ⟨L, by rw [show E.player1.length = (L : Int) + 1 from hlen]; omega, hslot⟩
    | P2 =>
      rcases hcall with hc | hc
      · exact Player.noConfusion hc
      · exact Or.inr ⟨hEmode.trans hc, L,
          by rw [show E.player2.length = (L : Int) + 1 from hlen]; omega, hslot⟩
  have hGE : ∀ pos, IsOnAnySnake G pos = IsOnAnySnake E pos := by
    intro pos
    rw [hG]
    exact IsOnAnySnake_congr _ _ _ rfl rfl rfl
  have hGs : G.snake who = E.snake who := by
    rw [hG]; cases who <;> rfl
  have hfne : f ≠ (game.snake who).body L := by
    intro he
    have := fruitRejected_not_on_snake E f hrej
    rw [he, hon] at this
    exact Bool.noConfusion this
  rcases hcase with ⟨_, _, o, ho, hr⟩ | ⟨_, hr⟩
  · have hone : o ≠ (game.snake who).body L := by
      intro he
      have := obstacleRejected_not_on_snake G o ho
      rw [hGE, he, hon] at this
      exact Bool.noConfusion this
    have hrs : res.1.snake who = E.snake who := by
      rw [hr, ← hGs]; cases who <;> rfl
    have hcnt : G.obstacleCount = game.obstacleCount := by rw [hG]; exact hEcnt
    refine ⟨by rw [hrs, hEs], by rw [hrs, hslot], ?_, ?_, ?_⟩
    · rw [hr, ← hon, ← hGE]
      exact IsOnAnySnake_congr _ _ _ rfl rfl rfl
    · rw [hr, hG]
      exact hfne
    · intro _
      rw [hr]
      simp only
      rw [hcnt, setAt_same]
      exact hone
  · have hrs : res.1.snake who = E.snake who := by rw [hr, hGs]
    have hcnt : G.obstacleCount = game.obstacleCount := by rw [hG]; exact hEcnt
    refine ⟨by rw [hrs, hEs], by rw [hrs, hslot], ?_, ?_, ?_⟩
    · rw [hr, hGE]
      exact hon
    · rw [hr, hG]
      exact hfne
    · intro hinc
      rw [hr, hcnt] at hinc
      omega

/-- Witness for C10: the seeded snake `[(10,10),(9,10)]`, whose slot 2 still holds
`(0,0)`, eats the fruit at `(11,10)`.  Its third segment is `(0,0)`, not the old tail
`(9,10)`; the first fruit sample `(0,0)` is rejected and `(5,5)` is stored. -/
theorem UpdateSnakeLogic_stale_tail_witness :
    ∃ res, UpdateSnakeLogic 2 Player.P1
        (soloGame (snakeOf [⟨10, 10⟩, ⟨9, 10⟩] Direction.RIGHT) ⟨11, 10⟩)
        (samples [0, 0, 5, 5]) = some res ∧
      res.1.player1.length = 3 ∧ res.1.player1.body 2 = ⟨0, 0⟩ ∧
      res.1.player1.body 1 = ⟨10, 10⟩ ∧
      IsOnAnySnake res.1 ⟨0, 0⟩ = true ∧ res.1.fruit = ⟨5, 5⟩ :=
  ⟨_, rfl,
    (UpdateSnakeLogic_stale_tail 2 Player.P1
      (soloGame (snakeOf [⟨10, 10⟩, ⟨9, 10⟩] Direction.RIGHT) ⟨11, 10⟩)
      (samples [0, 0, 5, 5]) _ 2 rfl rfl (by decide) (by decide) (Or.inl rfl) rfl rfl rfl).1,
    (UpdateSnakeLogic_stale_tail 2 Player.P1
      (soloGame (snakeOf [⟨10, 10⟩, ⟨9, 10⟩] Direction.RIGHT) ⟨11, 10⟩)
      (samples [0, 0, 5, 5]) _ 2 rfl rfl (by decide) (by decide) (Or.inl rfl) rfl rfl rfl).2.1,
    rfl,
    (UpdateSnakeLogic_stale_tail 2 Player.P1
      (soloGame (snakeOf [⟨10, 10⟩, ⟨9, 10⟩] Direction.RIGHT) ⟨11, 10⟩)
      (samples [0, 0, 5, 5]) _ 2 rfl rfl (by decide) (by decide) (Or.inl rfl) rfl rfl rfl).2.2.1,
    rfl⟩

/-! ## Completion of `UpdateSnakeLogic` and the effect of a reversal -/

/-- A call of `UpdateSnakeLogic` completes, whatever the bound on the retry loops, when
the snake is dead already, or its move ends in a collision, or its new head is not on
the fruit cell: the retry loops are entered only when a surviving snake eats. -/
theorem UpdateSnakeLogic_completes_without_fruit (fuel : Nat) (who : Player) (game : GameState)
    (rnd : RandStream)
    (h : (game.snake who).isDead = true ∨
      collides (game.setSnake who (movedSnake (game.snake who))) (movedSnake (game.snake who))
        (game.snake who.other) = true ∨
      (movedSnake (game.snake who)).body 0 ≠ game.fruit) :
    ∃ res, UpdateSnakeLogic fuel who game rnd = some res := by
  cases hd : (game.snake who).isDead with
  | true => exact ⟨_, UpdateSnakeLogic_dead fuel who game rnd hd⟩
  | false =>
    have hno : (!collides (game.setSnake who (movedSnake (game.snake who)))
          (movedSnake (game.snake who)) (game.snake who.other) &&
        IsCollision ((movedSnake (game.snake who)).body 0) game.fruit) = false := by
      rcases h with h | h | h
      · rw [hd] at h
        exact Bool.noConfusion h
      · rw [h]
        rfl
      · rw [(IsCollision_false_iff _ _).2 h, Bool.and_false]
    unfold UpdateSnakeLogic
    rw [if_neg (by simp [hd])]
    simp only [snake_setSnake, snake_other_setSnake, fruit_setSnake, setSnake_setSnake]
    rw [if_neg (by rw [hno]; exact Bool.false_ne_true)]
    exact ⟨_, rfl⟩

/-- What the reversal of C1 leads to: a straight snake of length 3 heading RIGHT, with
`KEY_UP` and `KEY_LEFT` pressed in a frame whose timer is due, turns round, runs into its
own second segment and the game is over. -/
theorem reversal_ends_the_game :
    ∃ res, playingFrame 0
        { p1Keys := ⟨true, false, true, false⟩, p2Keys := ⟨false, false, false, false⟩,
          keySpace := false, keyEnter := false, timerDue := true, seed := samples [] }
        (soloGame (snakeOf [⟨10, 10⟩, ⟨9, 10⟩, ⟨8, 10⟩] Direction.RIGHT) ⟨20, 20⟩)
        (samples []) = some res ∧
      res.1.player1.dir = Direction.LEFT ∧ res.1.player1.body 0 = ⟨9, 10⟩ ∧
      res.1.player1.body 2 = ⟨9, 10⟩ ∧ res.1.player1.isDead = true ∧
      res.1.gameOver = true :=
  ⟨_, rfl, rfl, rfl, rfl, rfl, rfl⟩

/-! ## Head-on collision -/

/-- C11: mode 2, both snakes alive, player 1 of length at least 1.  When both snakes move
into the same cell, and that cell is inside the grid, on no stored obstacle, on none of
player 1's own shifted segments and on none of player 2's segments as they are before the
tick, then after a completed tick both heads are on that cell, player 1 is alive,
player 2 is dead, `gameOver` is set and `winningPlayer` is 1, not the tie value 3:
player 2 is updated second and runs into the head player 1 has already moved. -/
theorem simulationTick_head_on (fuel : Nat) (game : GameState) (rnd : RandStream)
    (res : GameState × RandStream) (cell : Vector2Int)
    (hmode : game.gameMode = 2)
    (hlive1 : game.player1.isDead = false) (hlive2 : game.player2.isDead = false)
    (hlen1 : 1 ≤ game.player1.length)
    (hhead1 : moveHead game.player1.dir (game.player1.body 0) = cell)
    (hhead2 : moveHead game.player2.dir (game.player2.body 0) = cell)
    (hwall : 0 ≤ cell.x ∧ cell.x < 40 ∧ 0 ≤ cell.y ∧ cell.y < 30)
    (hobstacle : ∀ i : Nat, (i : Int) < game.obstacleCount → game.obstacles i ≠ cell)
    (hself : ∀ i : Nat, 1 ≤ i → (i : Int) < game.player1.length →
      game.player1.body (i - 1) ≠ cell)
    (hother : ∀ i : Nat, (i : Int) < game.player2.length → game.player2.body i ≠ cell)
    (hres : simulationTick fuel game rnd = some res) :
    res.1.player1.body 0 = cell ∧ res.1.player2.body 0 = cell ∧
    res.1.player1.isDead = false ∧ res.1.player2.isDead = true ∧
    res.1.gameOver = true ∧ res.1.winningPlayer = 1 ∧ res.1.winningPlayer ≠ 3 := by
  obtain ⟨g1, r1, g2, r2, hu1, hu2, hm2, hr⟩ := simulationTick_shape fuel game rnd res hres
  obtain ⟨e1, e2, _, _, _, _, _, _, _, _, _, _, _, eover, _⟩ := evaluateRoundEnd_spec g2
  rcases hu2 with ⟨_, hu2⟩ | ⟨hne, _, _⟩
  · -- the update of player 1
    obtain ⟨hbody1, _, hdead1, hp2, _, hmode1, _⟩ :=
      UpdateSnakeLogic_frame fuel Player.P1 game rnd (g1, r1) hlive1 hu1
    have hb1 : g1.player1.body = (movedSnake game.player1).body := hbody1
    have hg1p2 : g1.player2 = game.player2 := hp2
    have hg1mode : g1.gameMode = 2 := hmode1.trans hmode
    have hmh1 : (movedSnake game.player1).body 0 = cell := by
      rw [movedSnake_head]; exact hhead1
    have halive1 : g1.player1.isDead = false := by
      have hd : g1.player1.isDead = collides (game.setSnake Player.P1 (movedSnake game.player1))
          (movedSnake game.player1) game.player2 := hdead1
      rw [hd, ← Bool.not_eq_true, collides_iff, hmh1]
      have hobs : (game.setSnake Player.P1 (movedSnake game.player1)).obstacles
          = game.obstacles := rfl
      have hcnt : (game.setSnake Player.P1 (movedSnake game.player1)).obstacleCount
          = game.obstacleCount := rfl
      rw [hobs, hcnt, movedSnake_length]
      rintro (hw | ⟨i, hi, he⟩ | ⟨i, hi1, hi2, he⟩ | ⟨_, _, i, hi, he⟩)
      · omega
      · exact hobstacle i hi he
      · rw [movedSnake_segment _ i hi1 hi2] at he
        exact hself i hi1 hi2 he
      · exact hother i hi he
    have hlen1' : 1 ≤ g1.player1.length := by
      have hm : MAX_SNAKE_LENGTH = 100 := rfl
      rcases UpdateSnakeLogic_snake fuel Player.P1 game rnd (g1, r1) hlive1 hu1 with
        hsame | ⟨_, _, hgrow⟩
      · have hs : g1.player1.length = game.player1.length := hsame
        omega
      · have hs : g1.player1.length =
            if game.player1.length < MAX_SNAKE_LENGTH then game.player1.length + 1
            else game.player1.length := hgrow
        rw [hs]
        split <;> omega
    -- the update of player 2
    have hlive2' : (g1.snake Player.P2).isDead = false := by
      show g1.player2.isDead = false
      rw [hg1p2]; exact hlive2
    obtain ⟨hbody2, _, hdead2, hp1, _⟩ :=
      UpdateSnakeLogic_frame fuel Player.P2 g1 r1 (g2, r2) hlive2' hu2
    have hb2 : g2.player2.body = (movedSnake g1.player2).body := hbody2
    have hg2p1 : g2.player1 = g1.player1 := hp1
    have hmh2 : (movedSnake g1.player2).body 0 = cell := by
      rw [movedSnake_head, hg1p2]; exact hhead2
    have hdead2' : g2.player2.isDead = true := by
      have hd : g2.player2.isDead = collides (g1.setSnake Player.P2 (movedSnake g1.player2))
          (movedSnake g1.player2) g1.player1 := hdead2
      rw [hd, collides_iff, hmh2]
      right; right; right
      refine ⟨hg1mode, halive1, 0, by omega, ?_⟩
      rw [hb1]; exact hmh1
    -- the end-of-round evaluation
    have hc : g2.player1.isDead = true ∨ (g2.gameMode = 2 ∧ g2.player2.isDead = true) :=
      Or.inr ⟨hm2.trans hmode, hdead2'⟩
    obtain ⟨hover, _, hwin⟩ := eover hc
    have hwin1 : (evaluateRoundEnd g2).winningPlayer = 1 := by
      rw [hwin, hm2, hmode, hg2p1, halive1, hdead2']
      simp
    subst hr
    simp only
    rw [e1, e2, hg2p1, hb1, hb2, hwin1]
    exact ⟨hmh1, hmh2, halive1, hdead2', hover, rfl, by decide⟩
  · exact absurd hmode hne

/-- Witness for C11: player 1 at `[(10,10),(9,10)]` heading RIGHT and player 2 at
`[(12,10),(13,10)]` heading LEFT both move into `(11,10)`: player 1 stays alive, player 2
dies, and player 1 is the winner. -/
theorem simulationTick_head_on_witness :
    ∃ res, simulationTick 0
        (duoGame (snakeOf [⟨10, 10⟩, ⟨9, 10⟩] Direction.RIGHT)
          (snakeOf [⟨12, 10⟩, ⟨13, 10⟩] Direction.LEFT) ⟨20, 20⟩) (samples []) = some res ∧
      res.1.player1.body 0 = ⟨11, 10⟩ ∧ res.1.player2.body 0 = ⟨11, 10⟩ ∧
      res.1.player1.isDead = false ∧ res.1.player2.isDead = true ∧
      res.1.gameOver = true ∧ res.1.winningPlayer = 1 ∧ res.1.winningPlayer ≠ 3 :=
  ⟨_, rfl,
    simulationTick_head_on 0
      (duoGame (snakeOf [⟨10, 10⟩, ⟨9, 10⟩] Direction.RIGHT)
        (snakeOf [⟨12, 10⟩, ⟨13, 10⟩] Direction.LEFT) ⟨20, 20⟩) (samples []) _ ⟨11, 10⟩
      rfl rfl rfl (by decide) rfl rfl (by decide)
      (fun i hi => by
        have h0 : (i : Int) < 0 := hi
        omega)
      (fun i h1 h2 => by
        have hi : i = 1 := by
          have h3 : (i : Int) < 2 := h2
          omega
        subst hi
        decide)
      (fun i h2 => by
        have h3 : (i : Int) < 2 := h2
        have hi : i = 0 ∨ i = 1 := by omega
        rcases hi with hi | hi <;> subst hi <;> decide)
      rfl⟩

end SnakeGame
